import Mathlib

/-!
# Arduino_KVStore: the typed value layer, the reference proxy and ESP32 type discovery

A shallow embedding of `src/kvstore/kvstore.h` (the generic `KVStoreInterface`
with its nested `reference<T>` proxy), of `src/kvstore/implementation/ESP32.cpp`
(the NVS-backed store), of `src/kvstore/implementation/portentac33.cpp` (the
store over an `mbed::KVStore`) and of parts of `UnoR4.cpp` (the store behind the
modem's AT commands) and `SAMD.cpp` (the store behind the WiFi co-processor),
followed by theorems about them.

Conventions of the embedding

* A byte is a natural number; a buffer is a `List Nat`.  Reading a byte reduces
  it modulo 256.
* A value of a fixed-width integer type `T` is an `Int` lying in `inRange T`;
  its object representation is the little-endian two's complement byte string
  of length `sizeof T` (all the supported boards are little-endian).
* Virtual member functions are fields of a record of functions over an explicit
  store state.  Every member function takes the state and returns the new state
  with its result, also the `const` ones: a `const` method of a backend still
  talks to a device.
* An uninitialised local (`T t;`) is a parameter holding its indeterminate
  initial bytes.
-/

namespace ArduinoStorage

/-! ## Fixed-width scalars and their object representation -/

/-- The eight fixed-width integer types the typed getters and setters name. -/
inductive ScalarType where
  | int8_t | uint8_t | int16_t | uint16_t | int32_t | uint32_t | int64_t | uint64_t
  deriving DecidableEq

/-- Value of `sizeof(T)` in bytes. -/
def sizeof : ScalarType → Nat
  | .int8_t => 1 | .uint8_t => 1
  | .int16_t => 2 | .uint16_t => 2
  | .int32_t => 4 | .uint32_t => 4
  | .int64_t => 8 | .uint64_t => 8

/-- Signedness of the type. -/
def isSigned : ScalarType → Bool
  | .int8_t => true | .int16_t => true | .int32_t => true | .int64_t => true
  | _ => false

/-- Width of the type in bits. -/
def bits (T : ScalarType) : Nat := 8 * sizeof T

/-- The representable values of `T`. -/
def inRange (T : ScalarType) (v : Int) : Prop :=
  if isSigned T then -(2 ^ (bits T - 1) : Int) ≤ v ∧ v < 2 ^ (bits T - 1)
  else 0 ≤ v ∧ v < 2 ^ bits T

instance (T : ScalarType) (v : Int) : Decidable (inRange T v) := by
  unfold inRange; exact inferInstance

/-- The `n` low bytes of `x`, least significant first. -/
def toBytes : Nat → Nat → List Nat
  | 0, _ => []
  | n + 1, x => (x % 256) :: toBytes n (x / 256)

/-- The number a little-endian byte string denotes. -/
def ofBytes : List Nat → Nat
  | [] => 0
  | b :: bs => b % 256 + 256 * ofBytes bs

/-- The object representation `(uint8_t*)&value` of a value of type `T`:
`sizeof(T)` bytes. -/
def rawBytes (T : ScalarType) (v : Int) : List Nat :=
  toBytes (sizeof T) (v % (2 : Int) ^ bits T).toNat

/-- The value of type `T` whose object representation is the first `sizeof(T)`
bytes of `buf`. -/
def fromRaw (T : ScalarType) (buf : List Nat) : Int :=
  let u : Int := ((ofBytes (buf.take (sizeof T)) % 2 ^ bits T : Nat) : Int)
  if isSigned T && decide ((2 : Int) ^ (bits T - 1) ≤ u) then u - 2 ^ bits T else u

/-- Conversion of a `size_t` to `res_t` (`int`, 32 bits on these targets). -/
def res_t_of_size_t (n : Nat) : Int :=
  let u : Int := ((n % 2 ^ 32 : Nat) : Int)
  if (2 : Int) ^ 31 ≤ u then u - 2 ^ 32 else u

/-! ## `KVStoreInterface<Key>`: the capability contract -/

/-- A pointer to a byte buffer: `none` is the null pointer, `some bytes` the
memory it points to. -/
abbrev Buf := Option (List Nat)

/-- The pure virtual member functions of `KVStoreInterface<Key>` (kvstore.h
lines 96-161) over a store state `S`.  `putBytes key b s` and
`getBytes key b s` take the buffer pointer `b` and the length `s`; `getBytes`
returns the buffer as the call left it. -/
structure KVStoreInterface (S K : Type) where
  begin_ : S → Bool × S
  end_ : S → Bool × S
  clear : S → Bool × S
  remove : K → S → Int × S
  exists_ : K → S → Bool × S
  putBytes : K → Buf → Nat → S → Int × S
  getBytes : K → Buf → Nat → S → (Int × Buf) × S
  getBytesLength : K → S → Nat × S

/-- The proxy `reference<T>`: the key and the cached value.  The `owner`
member is the interface record and store state its member functions take. -/
structure reference (K : Type) (T : ScalarType) where
  key : K
  value : Int
  deriving DecidableEq

/-- Generic `put<T>(key, value)` (kvstore.h line 173):
`return putBytes(key, (uint8_t*)&value, sizeof(value));`. -/
def KVStoreInterface.put {S K : Type} (B : KVStoreInterface S K) (T : ScalarType)
    (key : K) (value : Int) (s : S) : Int × S :=
  B.putBytes key (some (rawBytes T value)) (sizeof T) s

/-- Generic `get<T>(key, def)` (kvstore.h lines 185-193).  `t0` holds the
indeterminate initial bytes of the local `T t;`.  The result `res` of `getBytes`
is not looked at. -/
def KVStoreInterface.get {S K : Type} (B : KVStoreInterface S K) (T : ScalarType)
    (key : K) (d : Int) (t0 : List Nat) (s : S) : reference K T × S :=
  let e := B.exists_ key s
  if e.1 then
    let g := B.getBytes key (some t0) (sizeof T) e.2
    (⟨key, fromRaw T (g.1.2.getD t0)⟩, g.2)
  else
    (⟨key, d⟩, e.2)

/-- Member `reference::load()` (kvstore.h line 68):
`value = owner.get<T>(key).value;` with the default `def = 0`. -/
def reference.load {S K : Type} {T : ScalarType} (B : KVStoreInterface S K)
    (r : reference K T) (t0 : List Nat) (s : S) : reference K T × S :=
  let g := B.get T r.key 0 t0 s
  ({ r with value := g.1.value }, g.2)

/-- Member `reference::getValue()` (kvstore.h line 65): `load(); return value;`.
Returns the value read, the proxy and the store state. -/
def reference.getValue {S K : Type} {T : ScalarType} (B : KVStoreInterface S K)
    (r : reference K T) (t0 : List Nat) (s : S) : Int × reference K T × S :=
  let l := r.load B t0 s
  (l.1.value, l.1, l.2)

/-- Dereference `T operator*()` (kvstore.h line 59): `return getValue();`. -/
def reference.deref {S K : Type} {T : ScalarType} (B : KVStoreInterface S K)
    (r : reference K T) (t0 : List Nat) (s : S) : Int × reference K T × S :=
  r.getValue B t0 s

/-- Conversion `operator T ()` (kvstore.h line 62): `return getValue();`. -/
def reference.toT {S K : Type} {T : ScalarType} (B : KVStoreInterface S K)
    (r : reference K T) (t0 : List Nat) (s : S) : Int × reference K T × S :=
  r.getValue B t0 s

/-- Member `reference::save()` (kvstore.h line 71): `owner.put(key, value);`,
the result dropped. -/
def reference.save {S K : Type} {T : ScalarType} (B : KVStoreInterface S K)
    (r : reference K T) (s : S) : S :=
  (B.put T r.key r.value s).2

/-- Assignment `operator=(T t)` (kvstore.h lines 45-50):
`value = t; this->save(); return *this;`. -/
def reference.assign {S K : Type} {T : ScalarType} (B : KVStoreInterface S K)
    (r : reference K T) (t : Int) (s : S) : reference K T × S :=
  let r1 : reference K T := { r with value := t }
  (r1, r1.save B s)

/-- Assignment `operator=(const reference<T>& r)` (kvstore.h lines 53-56):
`value = r.value; return *this;`. -/
def reference.assignRef {K : Type} {T : ScalarType}
    (self r : reference K T) : reference K T :=
  { self with value := r.value }

/-- Member `reference::exists()` (kvstore.h line 74). -/
def reference.exists_ {S K : Type} {T : ScalarType} (B : KVStoreInterface S K)
    (r : reference K T) (s : S) : Bool × S :=
  B.exists_ r.key s

/-- Member `reference::remove()` (kvstore.h line 77), the result dropped. -/
def reference.remove {S K : Type} {T : ScalarType} (B : KVStoreInterface S K)
    (r : reference K T) (s : S) : S :=
  (B.remove r.key s).2

/-- The typed getters `getChar`, `getUChar`, `getShort`, `getUShort`, `getInt`,
`getUInt`, `getLong`, `getULong`, `getLong64`, `getULong64` (kvstore.h lines
379-469) all have the body `return get(key, defaultValue);` at their own type
`T`: the generic `get<T>` builds a proxy, which is then converted to `T`.  `t0`
and `t1` are the indeterminate locals of the two `get<T>` activations. -/
def KVStoreInterface.getTyped {S K : Type} (B : KVStoreInterface S K) (T : ScalarType)
    (key : K) (defaultValue : Int) (t0 t1 : List Nat) (s : S) : Int × S :=
  let g := B.get T key defaultValue t0 s
  let v := g.1.toT B t1 g.2
  (v.1, v.2.2)

/-- Getter `getChar(key, defaultValue)` (kvstore.h line 379). -/
def KVStoreInterface.getChar {S K : Type} (B : KVStoreInterface S K) :=
  B.getTyped .int8_t
/-- Getter `getUChar(key, defaultValue)` (kvstore.h line 389). -/
def KVStoreInterface.getUChar {S K : Type} (B : KVStoreInterface S K) :=
  B.getTyped .uint8_t
/-- Getter `getShort(key, defaultValue)` (kvstore.h line 399). -/
def KVStoreInterface.getShort {S K : Type} (B : KVStoreInterface S K) :=
  B.getTyped .int16_t
/-- Getter `getUShort(key, defaultValue)` (kvstore.h line 409). -/
def KVStoreInterface.getUShort {S K : Type} (B : KVStoreInterface S K) :=
  B.getTyped .uint16_t
/-- Getter `getInt(key, defaultValue)` (kvstore.h line 419). -/
def KVStoreInterface.getInt {S K : Type} (B : KVStoreInterface S K) :=
  B.getTyped .int32_t
/-- Getter `getUInt(key, defaultValue)` (kvstore.h line 429). -/
def KVStoreInterface.getUInt {S K : Type} (B : KVStoreInterface S K) :=
  B.getTyped .uint32_t
/-- Getter `getLong(key, defaultValue)` (kvstore.h line 439): an `int32_t`. -/
def KVStoreInterface.getLong {S K : Type} (B : KVStoreInterface S K) :=
  B.getTyped .int32_t
/-- Getter `getULong(key, defaultValue)` (kvstore.h line 449): a `uint32_t`. -/
def KVStoreInterface.getULong {S K : Type} (B : KVStoreInterface S K) :=
  B.getTyped .uint32_t
/-- Getter `getLong64(key, defaultValue)` (kvstore.h line 459). -/
def KVStoreInterface.getLong64 {S K : Type} (B : KVStoreInterface S K) :=
  B.getTyped .int64_t
/-- Getter `getULong64(key, defaultValue)` (kvstore.h line 469). -/
def KVStoreInterface.getULong64 {S K : Type} (B : KVStoreInterface S K) :=
  B.getTyped .uint64_t

/-! ### Observing the calls a backend receives -/

/-- One call of a virtual member function of the interface, with its
arguments. -/
inductive Call (K : Type) where
  | begin_ | end_ | clear
  | remove (key : K)
  | exists_ (key : K)
  | putBytes (key : K) (b : Buf) (s : Nat)
  | getBytes (key : K) (b : Buf) (s : Nat)
  | getBytesLength (key : K)
  deriving DecidableEq

/-- The backend `B` with a journal: every virtual call behaves as in `B` and
appends itself to the list of calls received. -/
def KVStoreInterface.traced {S K : Type} (B : KVStoreInterface S K) :
    KVStoreInterface (S × List (Call K)) K where
  begin_ st := ((B.begin_ st.1).1, ((B.begin_ st.1).2, st.2 ++ [Call.begin_]))
  end_ st := ((B.end_ st.1).1, ((B.end_ st.1).2, st.2 ++ [Call.end_]))
  clear st := ((B.clear st.1).1, ((B.clear st.1).2, st.2 ++ [Call.clear]))
  remove key st := ((B.remove key st.1).1, ((B.remove key st.1).2, st.2 ++ [Call.remove key]))
  exists_ key st :=
    ((B.exists_ key st.1).1, ((B.exists_ key st.1).2, st.2 ++ [Call.exists_ key]))
  putBytes key b s st :=
    ((B.putBytes key b s st.1).1, ((B.putBytes key b s st.1).2, st.2 ++ [Call.putBytes key b s]))
  getBytes key b s st :=
    ((B.getBytes key b s st.1).1, ((B.getBytes key b s st.1).2, st.2 ++ [Call.getBytes key b s]))
  getBytesLength key st :=
    ((B.getBytesLength key st.1).1,
      ((B.getBytesLength key st.1).2, st.2 ++ [Call.getBytesLength key]))

/-- A byte-faithful backend, relative to a relation `Stored s k b` ("in state
`s` the bytes `b` are stored at key `k`"): a `putBytes` of the first `n > 0`
bytes of a buffer that reports all `n` bytes written stores them; a stored key
exists; `getBytes` into a buffer of sufficient size copies the stored bytes to
its front; and `exists` and `getBytes` leave what is stored in place. -/
structure ByteFaithful {S K : Type} (B : KVStoreInterface S K)
    (Stored : S → K → List Nat → Prop) : Prop where
  putBytes_stores : ∀ (s : S) (k : K) (mem : List Nat) (n : Nat),
    0 < n → (B.putBytes k (some mem) n s).1 = n →
      Stored (B.putBytes k (some mem) n s).2 k (mem.take n)
  exists_true : ∀ (s : S) (k : K) (b : List Nat), Stored s k b → (B.exists_ k s).1 = true
  exists_keeps : ∀ (s : S) (k : K) (b : List Nat), Stored s k b → Stored (B.exists_ k s).2 k b
  getBytes_copies : ∀ (s : S) (k : K) (b buf : List Nat) (n : Nat),
    Stored s k b → b.length ≤ n →
      (B.getBytes k (some buf) n s).1.2 = some (b ++ buf.drop b.length)
  getBytes_keeps : ∀ (s : S) (k : K) (b buf : List Nat) (n : Nat),
    Stored s k b → Stored (B.getBytes k (some buf) n s).2 k b

/-! ## The NVS library the ESP32 store is written against -/

/-- Error codes `esp_err_t`; `ESP_OK` is zero. -/
abbrev esp_err_t := Int

/-- Constant `ESP_OK`. -/
def ESP_OK : esp_err_t := 0

/-- A `const char*`: `none` is the null pointer. -/
abbrev CStr := Option String

/-- Value of `strlen(key)` for a pointer already known to be non-null (the
characters of a key are one byte each). -/
def strlen : CStr → Nat
  | none => 0
  | some k => k.length

/-- The functions of `nvs.h` and `nvs_flash.h` that ESP32.cpp calls, over the
state `N` of the flash store.  An output parameter is returned as an option:
`some x` when the call wrote `x` through the pointer, `none` when it left the
pointee alone.  `nvs_get_str` and `nvs_get_blob` take the output buffer and
the value of `*length`, and return the buffer and `*length` as they left them.
`nvs_set t` and `nvs_get t` stand for the eight functions `nvs_set_i8`, ...,
`nvs_set_u64` and `nvs_get_i8`, ..., `nvs_get_u64`.  The open mode is `true`
for `NVS_READONLY`. -/
structure Nvs (N : Type) where
  nvs_flash_init_partition : CStr → N → esp_err_t × N
  nvs_open_from_partition : CStr → CStr → Bool → N → (esp_err_t × Option Nat) × N
  nvs_open : CStr → Bool → N → (esp_err_t × Option Nat) × N
  nvs_close : Nat → N → N
  nvs_erase_all : Nat → N → esp_err_t × N
  nvs_erase_key : Nat → CStr → N → esp_err_t × N
  nvs_commit : Nat → N → esp_err_t × N
  nvs_set : ScalarType → Nat → CStr → Int → N → esp_err_t × N
  nvs_set_str : Nat → CStr → CStr → N → esp_err_t × N
  nvs_set_blob : Nat → CStr → Buf → Nat → N → esp_err_t × N
  nvs_get : ScalarType → Nat → CStr → N → (esp_err_t × Option Int) × N
  nvs_get_str : Nat → CStr → Buf → Nat → N → (esp_err_t × Buf × Nat) × N
  nvs_get_blob : Nat → CStr → Buf → Nat → N → (esp_err_t × Buf × Nat) × N

/-! ## `ESP32KVStore` (ESP32.h, ESP32.cpp) -/

/-- Constant `DEFAULT_KVSTORE_NAME` (ESP32.h line 18). -/
def DEFAULT_KVSTORE_NAME : String := "arduino"

/-- The enumeration `ESP32KVStore::Type` (ESP32.h lines 22-24). -/
inductive PType where
  | PT_I8 | PT_U8 | PT_I16 | PT_U16 | PT_I32 | PT_U32 | PT_I64 | PT_U64
  | PT_STR | PT_BLOB | PT_INVALID
  deriving DecidableEq

/-- The data members of `ESP32KVStore` (ESP32.h lines 53-56). -/
structure ESP32KVStore where
  name : String
  _handle : Nat
  _started : Bool
  _readOnly : Bool
  deriving DecidableEq

namespace ESP32KVStore

/-- Constructor `ESP32KVStore()` (ESP32.h line 26): `name(DEFAULT_KVSTORE_NAME) {}`.
Only `name` has an initialiser.  `handle0`, `started0` and `readOnly0` are the
indeterminate values that the members `_handle`, `_started` and `_readOnly` of
an object with automatic storage hold until `begin` or `end` assigns them. -/
def ctor (handle0 : Nat) (started0 readOnly0 : Bool) : ESP32KVStore :=
  { name := DEFAULT_KVSTORE_NAME, _handle := handle0, _started := started0,
    _readOnly := readOnly0 }

/-- Method `begin(name, readOnly, partition_label)` (ESP32.cpp lines 16-38). -/
def begin3 {N : Type} (nvs : Nvs N) (self : ESP32KVStore) (name : CStr) (readOnly : Bool)
    (partition_label : CStr) (n : N) : Bool × ESP32KVStore × N :=
  if self._started then (false, self, n) else
  let self1 := { self with _readOnly := readOnly }
  if partition_label.isSome then
    let i := nvs.nvs_flash_init_partition partition_label n
    if i.1 ≠ 0 then (false, self1, i.2) else
    let o := nvs.nvs_open_from_partition partition_label name readOnly i.2
    let self2 := { self1 with _handle := o.1.2.getD self1._handle }
    if o.1.1 ≠ 0 then (false, self2, o.2) else
    (true, { self2 with _started := true }, o.2)
  else
    let o := nvs.nvs_open name readOnly n
    let self2 := { self1 with _handle := o.1.2.getD self1._handle }
    if o.1.1 ≠ 0 then (false, self2, o.2) else
    (true, { self2 with _started := true }, o.2)

/-- Method `begin()` (ESP32.cpp lines 40-42): `begin(DEFAULT_KVSTORE_NAME)`,
with the declared defaults `readOnly = false`, `partitionLabel = nullptr`. -/
def begin_ {N : Type} (nvs : Nvs N) (self : ESP32KVStore) (n : N) :
    Bool × ESP32KVStore × N :=
  begin3 nvs self (some DEFAULT_KVSTORE_NAME) false none n

/-- Method `end()` (ESP32.cpp lines 44-52). -/
def end_ {N : Type} (nvs : Nvs N) (self : ESP32KVStore) (n : N) :
    Bool × ESP32KVStore × N :=
  if !self._started then (false, self, n) else
  (true, { self with _started := false }, nvs.nvs_close self._handle n)

/-- Method `clear()` (ESP32.cpp lines 54-69). -/
def clear {N : Type} (nvs : Nvs N) (self : ESP32KVStore) (n : N) : Bool × N :=
  if !self._started || self._readOnly then (false, n) else
  let e := nvs.nvs_erase_all self._handle n
  if e.1 ≠ 0 then (false, e.2) else
  let c := nvs.nvs_commit self._handle e.2
  if c.1 ≠ 0 then (false, c.2) else
  (true, c.2)

/-- Method `remove(key)` (ESP32.cpp lines 71-86); `false` and `true` as the
`res_t` values 0 and 1. -/
def remove {N : Type} (nvs : Nvs N) (self : ESP32KVStore) (key : CStr) (n : N) : Int × N :=
  if !self._started || key.isNone || self._readOnly then (0, n) else
  let e := nvs.nvs_erase_key self._handle key n
  if e.1 ≠ 0 then (0, e.2) else
  let c := nvs.nvs_commit self._handle e.2
  if c.1 ≠ 0 then (0, c.2) else
  (1, c.2)

/-- Method `putBytes(key, value, len)` (ESP32.cpp lines 88-103). -/
def putBytes {N : Type} (nvs : Nvs N) (self : ESP32KVStore) (key : CStr) (value : Buf)
    (len : Nat) (n : N) : Int × N :=
  if !self._started || key.isNone || value.isNone || len = 0 || self._readOnly then (0, n) else
  let e := nvs.nvs_set_blob self._handle key value len n
  if e.1 ≠ 0 then (0, e.2) else
  let c := nvs.nvs_commit self._handle e.2
  if c.1 ≠ 0 then (0, c.2) else
  (res_t_of_size_t len, c.2)

/-- Method `getBytesLength(key)` (ESP32.cpp lines 122-133). -/
def getBytesLength {N : Type} (nvs : Nvs N) (self : ESP32KVStore) (key : CStr) (n : N) :
    Nat × N :=
  if !self._started || key.isNone then (0, n) else
  let g := nvs.nvs_get_blob self._handle key none 0 n
  if g.1.1 ≠ 0 then (0, g.2) else
  (g.1.2.2, g.2)

/-- Method `getBytes(key, buf, maxLen)` (ESP32.cpp lines 105-120). -/
def getBytes {N : Type} (nvs : Nvs N) (self : ESP32KVStore) (key : CStr) (buf : Buf)
    (maxLen : Nat) (n : N) : (Int × Buf) × N :=
  let l := getBytesLength nvs self key n
  if l.1 = 0 || buf.isNone || maxLen = 0 then ((res_t_of_size_t l.1, buf), l.2) else
  if l.1 > maxLen then ((0, buf), l.2) else
  let g := nvs.nvs_get_blob self._handle key buf l.1 l.2
  if g.1.1 ≠ 0 then ((0, g.1.2.1), g.2) else
  ((res_t_of_size_t g.1.2.2, g.1.2.1), g.2)

/-- Method `getType(key)` (ESP32.cpp lines 140-158): the ten probes, in the
order of the source. -/
def getType {N : Type} (nvs : Nvs N) (self : ESP32KVStore) (key : CStr) (n : N) :
    PType × N :=
  if !self._started || key.isNone || decide (strlen key > 15) then (.PT_INVALID, n) else
  let p1 := nvs.nvs_get .int8_t self._handle key n
  if p1.1.1 = ESP_OK then (.PT_I8, p1.2) else
  let p2 := nvs.nvs_get .uint8_t self._handle key p1.2
  if p2.1.1 = ESP_OK then (.PT_U8, p2.2) else
  let p3 := nvs.nvs_get .int16_t self._handle key p2.2
  if p3.1.1 = ESP_OK then (.PT_I16, p3.2) else
  let p4 := nvs.nvs_get .uint16_t self._handle key p3.2
  if p4.1.1 = ESP_OK then (.PT_U16, p4.2) else
  let p5 := nvs.nvs_get .int32_t self._handle key p4.2
  if p5.1.1 = ESP_OK then (.PT_I32, p5.2) else
  let p6 := nvs.nvs_get .uint32_t self._handle key p5.2
  if p6.1.1 = ESP_OK then (.PT_U32, p6.2) else
  let p7 := nvs.nvs_get .int64_t self._handle key p6.2
  if p7.1.1 = ESP_OK then (.PT_I64, p7.2) else
  let p8 := nvs.nvs_get .uint64_t self._handle key p7.2
  if p8.1.1 = ESP_OK then (.PT_U64, p8.2) else
  let p9 := nvs.nvs_get_str self._handle key none 0 p8.2
  if p9.1.1 = ESP_OK then (.PT_STR, p9.2) else
  let p10 := nvs.nvs_get_blob self._handle key none p9.1.2.2 p9.2
  if p10.1.1 = ESP_OK then (.PT_BLOB, p10.2) else
  (.PT_INVALID, p10.2)

/-- Method `exists(key)` (ESP32.cpp lines 136-138):
`return getType(key) != PT_INVALID;`. -/
def exists_ {N : Type} (nvs : Nvs N) (self : ESP32KVStore) (key : CStr) (n : N) : Bool × N :=
  let t := getType nvs self key n
  (decide (t.1 ≠ PType.PT_INVALID), t.2)

/-- The literal each of the eight `put<T>` specialisations returns on success
(ESP32.cpp lines 176, 194, 212, 230, 248, 266, 284, 302). -/
def putSuccess : ScalarType → Int
  | .int8_t => 1 | .uint8_t => 1
  | .int16_t => 2 | .uint16_t => 2
  | .int32_t => 4 | .uint32_t => 4
  | .int64_t => 8 | .uint64_t => 8

/-- The specialisations `put<int8_t>`, ..., `put<uint64_t>` (ESP32.cpp lines
161-303); they differ in the NVS setter called and in the literal returned. -/
def put {N : Type} (nvs : Nvs N) (self : ESP32KVStore) (T : ScalarType) (key : CStr)
    (value : Int) (n : N) : Int × N :=
  if !self._started || key.isNone || self._readOnly then (0, n) else
  let e := nvs.nvs_set T self._handle key value n
  if e.1 ≠ 0 then (0, e.2) else
  let c := nvs.nvs_commit self._handle e.2
  if c.1 ≠ 0 then (0, c.2) else
  (putSuccess T, c.2)

/-- The specialisations `get<int8_t>`, ..., `get<uint64_t>` (ESP32.cpp lines
342-444); they differ in the NVS getter called. -/
def get {N : Type} (nvs : Nvs N) (self : ESP32KVStore) (T : ScalarType) (key : CStr)
    (defaultValue : Int) (n : N) : reference CStr T × N :=
  if !self._started || key.isNone then (⟨key, defaultValue⟩, n) else
  let g := nvs.nvs_get T self._handle key n
  (⟨key, g.1.2.getD defaultValue⟩, g.2)

/-- The virtual functions of an `ESP32KVStore`, as seen through a
`KVStoreInterface<const char*>&`: the store state is the object together with
the state of the NVS library. -/
def interface {N : Type} (nvs : Nvs N) : KVStoreInterface (ESP32KVStore × N) CStr where
  begin_ st := ((begin_ nvs st.1 st.2).1, (begin_ nvs st.1 st.2).2)
  end_ st := ((end_ nvs st.1 st.2).1, (end_ nvs st.1 st.2).2)
  clear st := ((clear nvs st.1 st.2).1, (st.1, (clear nvs st.1 st.2).2))
  remove key st := ((remove nvs st.1 key st.2).1, (st.1, (remove nvs st.1 key st.2).2))
  exists_ key st := ((exists_ nvs st.1 key st.2).1, (st.1, (exists_ nvs st.1 key st.2).2))
  putBytes key b s st :=
    ((putBytes nvs st.1 key b s st.2).1, (st.1, (putBytes nvs st.1 key b s st.2).2))
  getBytes key b s st :=
    ((getBytes nvs st.1 key b s st.2).1, (st.1, (getBytes nvs st.1 key b s st.2).2))
  getBytesLength key st :=
    ((getBytesLength nvs st.1 key st.2).1, (st.1, (getBytesLength nvs st.1 key st.2).2))

end ESP32KVStore

/-! ### Observing the NVS calls the store makes -/

/-- One call of an NVS function, with its arguments. -/
inductive NvsCall where
  | flash_init_partition (label : CStr)
  | open_from_partition (label name : CStr) (readOnly : Bool)
  | open_ (name : CStr) (readOnly : Bool)
  | close (h : Nat)
  | erase_all (h : Nat)
  | erase_key (h : Nat) (key : CStr)
  | commit (h : Nat)
  | set (t : ScalarType) (h : Nat) (key : CStr) (v : Int)
  | set_str (h : Nat) (key value : CStr)
  | set_blob (h : Nat) (key : CStr) (value : Buf) (len : Nat)
  | get (t : ScalarType) (h : Nat) (key : CStr)
  | get_str (h : Nat) (key : CStr) (out : Buf) (len : Nat)
  | get_blob (h : Nat) (key : CStr) (out : Buf) (len : Nat)
  deriving DecidableEq

/-- The NVS library `nvs` with a journal: every function behaves as in `nvs`
and appends itself to the list of calls made. -/
def Nvs.traced {N : Type} (nvs : Nvs N) : Nvs (N × List NvsCall) where
  nvs_flash_init_partition l st :=
    ((nvs.nvs_flash_init_partition l st.1).1,
      ((nvs.nvs_flash_init_partition l st.1).2, st.2 ++ [NvsCall.flash_init_partition l]))
  nvs_open_from_partition l nm ro st :=
    ((nvs.nvs_open_from_partition l nm ro st.1).1,
      ((nvs.nvs_open_from_partition l nm ro st.1).2,
        st.2 ++ [NvsCall.open_from_partition l nm ro]))
  nvs_open nm ro st :=
    ((nvs.nvs_open nm ro st.1).1, ((nvs.nvs_open nm ro st.1).2, st.2 ++ [NvsCall.open_ nm ro]))
  nvs_close h st := (nvs.nvs_close h st.1, st.2 ++ [NvsCall.close h])
  nvs_erase_all h st :=
    ((nvs.nvs_erase_all h st.1).1, ((nvs.nvs_erase_all h st.1).2, st.2 ++ [NvsCall.erase_all h]))
  nvs_erase_key h k st :=
    ((nvs.nvs_erase_key h k st.1).1,
      ((nvs.nvs_erase_key h k st.1).2, st.2 ++ [NvsCall.erase_key h k]))
  nvs_commit h st :=
    ((nvs.nvs_commit h st.1).1, ((nvs.nvs_commit h st.1).2, st.2 ++ [NvsCall.commit h]))
  nvs_set t h k v st :=
    ((nvs.nvs_set t h k v st.1).1, ((nvs.nvs_set t h k v st.1).2, st.2 ++ [NvsCall.set t h k v]))
  nvs_set_str h k v st :=
    ((nvs.nvs_set_str h k v st.1).1,
      ((nvs.nvs_set_str h k v st.1).2, st.2 ++ [NvsCall.set_str h k v]))
  nvs_set_blob h k v len st :=
    ((nvs.nvs_set_blob h k v len st.1).1,
      ((nvs.nvs_set_blob h k v len st.1).2, st.2 ++ [NvsCall.set_blob h k v len]))
  nvs_get t h k st :=
    ((nvs.nvs_get t h k st.1).1, ((nvs.nvs_get t h k st.1).2, st.2 ++ [NvsCall.get t h k]))
  nvs_get_str h k out len st :=
    ((nvs.nvs_get_str h k out len st.1).1,
      ((nvs.nvs_get_str h k out len st.1).2, st.2 ++ [NvsCall.get_str h k out len]))
  nvs_get_blob h k out len st :=
    ((nvs.nvs_get_blob h k out len st.1).1,
      ((nvs.nvs_get_blob h k out len st.1).2, st.2 ++ [NvsCall.get_blob h k out len]))

/-! ### A reference NVS -/

/-- An entry of the flash store: NVS tags every entry with the type it was
written with. -/
inductive NvsItem where
  | int (t : ScalarType) (v : Int)
  | str (s : String)
  | blob (b : List Nat)
  deriving DecidableEq

/-- The entries of one NVS namespace, newest first. -/
abbrev NvsEntries := List (String × NvsItem)

/-- The entry stored under `k`, if any. -/
def NvsEntries.find (k : String) : NvsEntries → Option NvsItem
  | [] => none
  | e :: es => if e.1 = k then some e.2 else NvsEntries.find k es

/-- The entries without the one stored under `k`. -/
def NvsEntries.erase (k : String) : NvsEntries → NvsEntries
  | [] => []
  | e :: es => if e.1 = k then NvsEntries.erase k es else e :: NvsEntries.erase k es

/-- The entries after writing `it` under `k`: an earlier entry of the key, of
whatever type, is replaced. -/
def NvsEntries.write (k : String) (it : NvsItem) (es : NvsEntries) : NvsEntries :=
  (k, it) :: NvsEntries.erase k es

/-- Error `ESP_ERR_INVALID_ARG`. -/
def ESP_ERR_INVALID_ARG : esp_err_t := 0x102
/-- Error `ESP_ERR_NVS_NOT_FOUND`. -/
def ESP_ERR_NVS_NOT_FOUND : esp_err_t := 0x1102
/-- Error `ESP_ERR_NVS_KEY_TOO_LONG`. -/
def ESP_ERR_NVS_KEY_TOO_LONG : esp_err_t := 0x1109
/-- Error `ESP_ERR_NVS_INVALID_LENGTH`. -/
def ESP_ERR_NVS_INVALID_LENGTH : esp_err_t := 0x110c

/-- The bytes of a C string with its terminator. -/
def cstrBytes (s : String) : List Nat := s.data.map Char.toNat ++ [0]

/-- A key NVS accepts: not empty, at most 15 characters. -/
def nvsKeyOk (k : String) : Bool := decide (0 < k.length) && decide (k.length ≤ 15)

/-- Reading a variable-length entry `b` into `out` with `*length = len`: with a
null `out` only the required length is reported; otherwise the bytes are copied
to the front of the buffer when they fit. -/
def nvsReadVar (b : List Nat) (out : Buf) (len : Nat) : esp_err_t × Buf × Nat :=
  match out with
  | none => (ESP_OK, none, b.length)
  | some buf =>
    if len < b.length then (ESP_ERR_NVS_INVALID_LENGTH, some buf, b.length)
    else (ESP_OK, some (b ++ buf.drop b.length), b.length)

/-- Modelled from the spec: the ESP-IDF NVS library (`nvs.h`), which ESP32.cpp
calls and which is not among the sources.  One namespace of typed entries:
a write replaces the entry of its key; "each probe call explicitly requests that
backend call by width; a backend call for the wrong width must fail outright
rather than reinterpret bytes", so a read succeeds only on an entry written
with the same type; keys are limited to 15 characters; a failing read leaves
its output alone; opening and committing succeed. -/
def nvsModel : Nvs NvsEntries where
  nvs_flash_init_partition _ n := (ESP_OK, n)
  nvs_open_from_partition _ _ _ n := ((ESP_OK, some 1), n)
  nvs_open _ _ n := ((ESP_OK, some 1), n)
  nvs_close _ n := n
  nvs_erase_all _ _ := (ESP_OK, [])
  nvs_erase_key _ key n :=
    match key with
    | none => (ESP_ERR_INVALID_ARG, n)
    | some k =>
      if (NvsEntries.find k n).isSome then (ESP_OK, NvsEntries.erase k n)
      else (ESP_ERR_NVS_NOT_FOUND, n)
  nvs_commit _ n := (ESP_OK, n)
  nvs_set t _ key v n :=
    match key with
    | none => (ESP_ERR_INVALID_ARG, n)
    | some k =>
      if nvsKeyOk k then (ESP_OK, NvsEntries.write k (.int t v) n)
      else (ESP_ERR_NVS_KEY_TOO_LONG, n)
  nvs_set_str _ key value n :=
    match key, value with
    | some k, some v =>
      if nvsKeyOk k then (ESP_OK, NvsEntries.write k (.str v) n)
      else (ESP_ERR_NVS_KEY_TOO_LONG, n)
    | _, _ => (ESP_ERR_INVALID_ARG, n)
  nvs_set_blob _ key value len n :=
    match key, value with
    | some k, some mem =>
      if nvsKeyOk k then (ESP_OK, NvsEntries.write k (.blob (mem.take len)) n)
      else (ESP_ERR_NVS_KEY_TOO_LONG, n)
    | _, _ => (ESP_ERR_INVALID_ARG, n)
  nvs_get t _ key n :=
    match key with
    | none => ((ESP_ERR_INVALID_ARG, none), n)
    | some k =>
      match NvsEntries.find k n with
      | some (.int t1 v) =>
        if t1 = t then ((ESP_OK, some v), n) else ((ESP_ERR_NVS_NOT_FOUND, none), n)
      | _ => ((ESP_ERR_NVS_NOT_FOUND, none), n)
  nvs_get_str _ key out len n :=
    match key with
    | none => ((ESP_ERR_INVALID_ARG, out, len), n)
    | some k =>
      match NvsEntries.find k n with
      | some (.str s) => (nvsReadVar (cstrBytes s) out len, n)
      | _ => ((ESP_ERR_NVS_NOT_FOUND, out, len), n)
  nvs_get_blob _ key out len n :=
    match key with
    | none => ((ESP_ERR_INVALID_ARG, out, len), n)
    | some k =>
      match NvsEntries.find k n with
      | some (.blob b) => (nvsReadVar b out len, n)
      | _ => ((ESP_ERR_NVS_NOT_FOUND, out, len), n)

/-- A started, writable store object. -/
def startedStore : ESP32KVStore :=
  { name := DEFAULT_KVSTORE_NAME, _handle := 1, _started := true, _readOnly := false }

/-- What "the bytes `b` are stored at key `k`" means for a started ESP32 store
over the reference NVS: a blob entry under a key of legal length. -/
def esp32Stored (st : ESP32KVStore × NvsEntries) (k : CStr) (b : List Nat) : Prop :=
  st.1._started = true ∧
    ∃ key : String, k = some key ∧ key.length ≤ 15 ∧ NvsEntries.find key st.2 = some (.blob b)

/-! ### Type discovery, as the specification words it -/

/-- A probe for an integer type: the typed NVS read of that width.  The probe
state is the local `len` of `getType` with the NVS state. -/
def typedProbe {N : Type} (nvs : Nvs N) (t : ScalarType) (h : Nat) (key : CStr) :
    Nat × N → esp_err_t × (Nat × N) :=
  fun st => ((nvs.nvs_get t h key st.2).1.1, (st.1, (nvs.nvs_get t h key st.2).2))

/-- The string probe: a length query with a null output buffer. -/
def strProbe {N : Type} (nvs : Nvs N) (h : Nat) (key : CStr) :
    Nat × N → esp_err_t × (Nat × N) :=
  fun st => ((nvs.nvs_get_str h key none st.1 st.2).1.1,
    ((nvs.nvs_get_str h key none st.1 st.2).1.2.2, (nvs.nvs_get_str h key none st.1 st.2).2))

/-- The blob probe: a length query with a null output buffer. -/
def blobProbe {N : Type} (nvs : Nvs N) (h : Nat) (key : CStr) :
    Nat × N → esp_err_t × (Nat × N) :=
  fun st => ((nvs.nvs_get_blob h key none st.1 st.2).1.1,
    ((nvs.nvs_get_blob h key none st.1 st.2).1.2.2, (nvs.nvs_get_blob h key none st.1 st.2).2))

/-- The fixed order of the specification: signed 8, unsigned 8, signed 16,
unsigned 16, signed 32, unsigned 32, signed 64, unsigned 64, string, blob; each
tag with its probe. -/
def discoveryProbes {N : Type} (nvs : Nvs N) (h : Nat) (key : CStr) :
    List (PType × (Nat × N → esp_err_t × (Nat × N))) :=
  [(.PT_I8, typedProbe nvs .int8_t h key), (.PT_U8, typedProbe nvs .uint8_t h key),
   (.PT_I16, typedProbe nvs .int16_t h key), (.PT_U16, typedProbe nvs .uint16_t h key),
   (.PT_I32, typedProbe nvs .int32_t h key), (.PT_U32, typedProbe nvs .uint32_t h key),
   (.PT_I64, typedProbe nvs .int64_t h key), (.PT_U64, typedProbe nvs .uint64_t h key),
   (.PT_STR, strProbe nvs h key), (.PT_BLOB, blobProbe nvs h key)]

/-- The tag of the first probe that succeeds, trying the probes in order, each
in the state its predecessors left; `PT_INVALID` when none is left to try. -/
def firstSuccess {σ : Type} : List (PType × (σ → esp_err_t × σ)) → σ → PType × σ
  | [], st => (.PT_INVALID, st)
  | p :: ps, st =>
    if (p.2 st).1 = ESP_OK then (p.1, (p.2 st).2) else firstSuccess ps (p.2 st).2

/-- Every probe of the list fails, each tried in the state its predecessors
left. -/
def allFail {σ : Type} : List (PType × (σ → esp_err_t × σ)) → σ → Prop
  | [], _ => True
  | p :: ps, st => (p.2 st).1 ≠ ESP_OK ∧ allFail ps (p.2 st).2

/-- The tag the specification assigns to each integer width. -/
def tagOf : ScalarType → PType
  | .int8_t => .PT_I8 | .uint8_t => .PT_U8
  | .int16_t => .PT_I16 | .uint16_t => .PT_U16
  | .int32_t => .PT_I32 | .uint32_t => .PT_U32
  | .int64_t => .PT_I64 | .uint64_t => .PT_U64

/-- The typed-entry discipline of NVS, relative to a relation `HasType n h k t`
("in state `n` the entry of key `k` under handle `h` was written with type
`t`"): a successful typed write tags the entry with its type; on a tagged entry
a typed read succeeds exactly when it asks for that type; commits and reads
leave the tag in place. -/
structure TypedReads {N : Type} (nvs : Nvs N)
    (HasType : N → Nat → CStr → ScalarType → Prop) : Prop where
  set_tags : ∀ (t : ScalarType) (h : Nat) (k : CStr) (v : Int) (n : N),
    (nvs.nvs_set t h k v n).1 = ESP_OK → HasType (nvs.nvs_set t h k v n).2 h k t
  commit_keeps : ∀ (h : Nat) (n : N) (k : CStr) (t : ScalarType),
    HasType n h k t → HasType (nvs.nvs_commit h n).2 h k t
  get_keeps : ∀ (t1 : ScalarType) (h : Nat) (n : N) (k : CStr) (t : ScalarType),
    HasType n h k t → HasType (nvs.nvs_get t1 h k n).2 h k t
  get_ok_iff : ∀ (t1 : ScalarType) (h : Nat) (n : N) (k : CStr) (t : ScalarType),
    HasType n h k t → ((nvs.nvs_get t1 h k n).1.1 = ESP_OK ↔ t1 = t)

/-- The tag relation of the reference NVS: the key holds an integer entry of
type `t`. -/
def modelHasType (n : NvsEntries) (_h : Nat) (k : CStr) (t : ScalarType) : Prop :=
  ∃ (key : String) (v : Int), k = some key ∧ NvsEntries.find key n = some (.int t v)

/-! ## Further members of the generic layer and of the ESP32 store -/

/-- Conversion of a `res_t` (`int`) to `size_t` (32 bits on these targets). -/
def size_t_of_res_t (r : Int) : Nat := (r % 2 ^ 32).toNat

/-- Constructor `reference(key, value, owner)` (kvstore.h line 42):
`key(key), value(value), owner(owner) {}`, an empty body.  The store state is
passed through. -/
def reference.ctor {S K : Type} (T : ScalarType) (_B : KVStoreInterface S K)
    (key : K) (value : Int) (s : S) : reference K T × S :=
  (⟨key, value⟩, s)

/-- Default `putString(key, const char* value)` (kvstore.h line 357):
`return putBytes(key, (uint8_t*)value, strlen(value));`, the `res_t` converted
to the `size_t` returned.  The memory at `value` holds the characters and the
terminator. -/
def KVStoreInterface.putString {S K : Type} (B : KVStoreInterface S K)
    (key : K) (value : String) (s : S) : Nat × S :=
  (size_t_of_res_t (B.putBytes key (some (cstrBytes value)) (strlen (some value)) s).1,
    (B.putBytes key (some (cstrBytes value)) (strlen (some value)) s).2)

/-- Default `getString(key, char* value, size_t maxLen)` (kvstore.h line 509):
`return getBytes(key, (uint8_t*)value, maxLen);`, the `res_t` converted to the
`size_t` returned. -/
def KVStoreInterface.getString {S K : Type} (B : KVStoreInterface S K)
    (key : K) (value : Buf) (maxLen : Nat) (s : S) : (Nat × Buf) × S :=
  ((size_t_of_res_t (B.getBytes key value maxLen s).1.1, (B.getBytes key value maxLen s).1.2),
    (B.getBytes key value maxLen s).2)

/-- Override `ESP32KVStore::putString(key, const char* value)` (ESP32.cpp lines
305-321). -/
def ESP32KVStore.putString {N : Type} (nvs : Nvs N) (self : ESP32KVStore) (key : CStr)
    (value : CStr) (n : N) : Nat × N :=
  if !self._started || key.isNone || value.isNone || self._readOnly then (0, n) else
  let e := nvs.nvs_set_str self._handle key value n
  if e.1 ≠ 0 then (0, e.2) else
  let c := nvs.nvs_commit self._handle e.2
  if c.1 ≠ 0 then (0, c.2) else
  (strlen value, c.2)

/-- Override `ESP32KVStore::putString(key, String value)` (ESP32.cpp lines
323-325): `return putString(key, value.c_str());`. -/
def ESP32KVStore.putStringArduino {N : Type} (nvs : Nvs N) (self : ESP32KVStore)
    (key : CStr) (value : String) (n : N) : Nat × N :=
  ESP32KVStore.putString nvs self key (some value) n

/-- An NVS whose `nvs_get_blob`, given a non-null output buffer and
`*length = len`, leaves a buffer that differs from the one it was given in the
first `len` bytes at most. -/
def BlobWritesBounded {N : Type} (nvs : Nvs N) : Prop :=
  ∀ (h : Nat) (key : CStr) (buf : List Nat) (len : Nat) (n : N),
    ∃ out : List Nat, (nvs.nvs_get_blob h key (some buf) len n).1.2.1 = some out ∧
      out.drop len = buf.drop len

/-- The member functions of `mbed::KVStore` that portentac33.cpp calls, with
the constant `KVSTORE_SUCCESS`, over the state `M` of the block-device store.
The first argument is the store object the call is made on.  Every function
returns an mbed status; `get` also returns the buffer as it left it, and
`get_info` the size it wrote into `info`, if it wrote one. -/
structure MbedKVStore (M : Type) where
  KVSTORE_SUCCESS : Int
  init : Nat → M → Int × M
  deinit : Nat → M → Int × M
  reset : Nat → M → Int × M
  remove : Nat → CStr → M → Int × M
  set : Nat → CStr → Buf → Nat → Nat → M → Int × M
  get : Nat → CStr → Buf → Nat → M → (Int × Buf) × M
  get_info : Nat → CStr → M → (Int × Option Nat) × M

/-- The data members of `PortentaC33KVStore`, both pointers, null after the
constructor (portentac33.cpp line 14). -/
structure PortentaC33KVStore where
  kvstore : Option Nat
  bd : Option Nat
  deriving DecidableEq

namespace PortentaC33KVStore

/-- Method `clear()` (portentac33.cpp lines 58-60):
`kvstore != nullptr ? kvstore->reset() : false`, an `int` converted to `bool`. -/
def clear {M : Type} (kv : MbedKVStore M) (self : PortentaC33KVStore) (m : M) : Bool × M :=
  match self.kvstore with
  | some p => (decide ((kv.reset p m).1 ≠ 0), (kv.reset p m).2)
  | none => (false, m)

/-- Method `remove(key)` (portentac33.cpp lines 62-64):
`kvstore != nullptr ? kvstore->remove(key) : -1`. -/
def remove {M : Type} (kv : MbedKVStore M) (self : PortentaC33KVStore) (key : CStr) (m : M) :
    Int × M :=
  match self.kvstore with
  | some p => kv.remove p key m
  | none => (-1, m)

/-- Method `putBytes(key, buf, len)` (portentac33.cpp lines 66-68):
`kvstore != nullptr ? kvstore->set(key, buf, len, 0) : -1`. -/
def putBytes {M : Type} (kv : MbedKVStore M) (self : PortentaC33KVStore) (key : CStr)
    (buf : Buf) (len : Nat) (m : M) : Int × M :=
  match self.kvstore with
  | some p => kv.set p key buf len 0 m
  | none => (-1, m)

/-- Method `getBytes(key, buf, maxLen)` (portentac33.cpp lines 70-72):
`kvstore != nullptr ? kvstore->get(key, buf, maxLen) : false`. -/
def getBytes {M : Type} (kv : MbedKVStore M) (self : PortentaC33KVStore) (key : CStr)
    (buf : Buf) (maxLen : Nat) (m : M) : (Int × Buf) × M :=
  match self.kvstore with
  | some p => kv.get p key buf maxLen m
  | none => ((0, buf), m)

/-- Method `getBytesLength(key)` (portentac33.cpp lines 74-83).  `info0` is the
indeterminate initial `info.size` of the local `info`. -/
def getBytesLength {M : Type} (kv : MbedKVStore M) (self : PortentaC33KVStore) (key : CStr)
    (info0 : Nat) (m : M) : Nat × M :=
  match self.kvstore with
  | none => (0, m)
  | some p =>
    let r := kv.get_info p key m
    (if r.1.1 = kv.KVSTORE_SUCCESS then r.1.2.getD info0 else 0, r.2)

/-- Method `exists(key)` (portentac33.cpp lines 85-87):
`return getBytesLength(key) > 0;`. -/
def exists_ {M : Type} (kv : MbedKVStore M) (self : PortentaC33KVStore) (key : CStr)
    (info0 : Nat) (m : M) : Bool × M :=
  (decide ((getBytesLength kv self key info0 m).1 > 0), (getBytesLength kv self key info0 m).2)

end PortentaC33KVStore

/-- One call of an `mbed::KVStore` member function, with its arguments. -/
inductive MbedCall where
  | init (p : Nat)
  | deinit (p : Nat)
  | reset (p : Nat)
  | remove (p : Nat) (key : CStr)
  | set (p : Nat) (key : CStr) (buf : Buf) (len flags : Nat)
  | get (p : Nat) (key : CStr) (buf : Buf) (maxLen : Nat)
  | get_info (p : Nat) (key : CStr)
  deriving DecidableEq

/-- The store `kv` with a journal: every member function behaves as in `kv`
and appends itself to the list of calls made. -/
def MbedKVStore.traced {M : Type} (kv : MbedKVStore M) : MbedKVStore (M × List MbedCall) where
  KVSTORE_SUCCESS := kv.KVSTORE_SUCCESS
  init p st := ((kv.init p st.1).1, ((kv.init p st.1).2, st.2 ++ [MbedCall.init p]))
  deinit p st := ((kv.deinit p st.1).1, ((kv.deinit p st.1).2, st.2 ++ [MbedCall.deinit p]))
  reset p st := ((kv.reset p st.1).1, ((kv.reset p st.1).2, st.2 ++ [MbedCall.reset p]))
  remove p k st :=
    ((kv.remove p k st.1).1, ((kv.remove p k st.1).2, st.2 ++ [MbedCall.remove p k]))
  set p k b len fl st :=
    ((kv.set p k b len fl st.1).1,
      ((kv.set p k b len fl st.1).2, st.2 ++ [MbedCall.set p k b len fl]))
  get p k b maxLen st :=
    ((kv.get p k b maxLen st.1).1,
      ((kv.get p k b maxLen st.1).2, st.2 ++ [MbedCall.get p k b maxLen]))
  get_info p k st :=
    ((kv.get_info p k st.1).1, ((kv.get_info p k st.1).2, st.2 ++ [MbedCall.get_info p k]))

/-- The bytes stored under `k` in a list of key-value pairs, if any. -/
def mbedFind (k : String) : List (String × List Nat) → Option (List Nat)
  | [] => none
  | e :: es => if e.1 = k then some e.2 else mbedFind k es

/-- Modelled from the spec: the `mbed::KVStore` the Portenta store wraps, which
is not among the sources.  A map from keys to byte strings with status 0 for
success: `set` overwrites the value at a key with exactly the bytes given;
`get` fails without copying when the buffer is smaller than the stored length;
`get_info` reports the stored length; `remove` and reads of an absent key fail;
`reset` erases all keys. -/
def mbedModel : MbedKVStore (List (String × List Nat)) where
  KVSTORE_SUCCESS := 0
  init _ m := (0, m)
  deinit _ m := (0, m)
  reset _ _ := (0, [])
  remove _ key m :=
    match key with
    | none => (-2, m)
    | some k =>
      if (mbedFind k m).isSome then (0, m.filter (fun e => decide (e.1 ≠ k))) else (-3, m)
  set _ key buf len _ m :=
    match key, buf with
    | some k, some mem => (0, (k, mem.take len) :: m.filter (fun e => decide (e.1 ≠ k)))
    | _, _ => (-2, m)
  get _ key buf maxLen m :=
    match key, buf with
    | some k, some out =>
      match mbedFind k m with
      | some b => if maxLen < b.length then ((-4, some out), m)
                  else ((0, some (b ++ out.drop b.length)), m)
      | none => ((-3, some out), m)
    | _, _ => ((-2, buf), m)
  get_info _ key m :=
    match key with
    | none => ((-2, none), m)
    | some k =>
      match mbedFind k m with
      | some b => ((0, some b.length), m)
      | none => ((-3, none), m)

/-! ## Further hypotheses on the NVS library -/

/-- An NVS whose typed read leaves its output parameter alone when it fails. -/
def FailedReadKeeps {N : Type} (nvs : Nvs N) : Prop :=
  ∀ (t : ScalarType) (h : Nat) (k : CStr) (n : N),
    (nvs.nvs_get t h k n).1.1 ≠ ESP_OK → (nvs.nvs_get t h k n).1.2 = none

/-! ## `SAMDKVStore` (SAMD.cpp) -/

/-- The functions of the WiFiNINA driver class `WiFiDrv` that `exists` and
`getString` of SAMD.cpp call, with the constants `PT_STR` and `PT_INVALID` of
its preference-type enumeration, over the state `W` of the co-processor.
`prefGet key type value len` takes the buffer pointer and the length by value
and returns its result with the buffer as it left it. -/
structure WiFiDrv (W : Type) where
  PT_STR : Nat
  PT_INVALID : Nat
  prefGetType : CStr → W → Nat × W
  prefGet : CStr → Nat → Buf → Nat → W → (Nat × Buf) × W

namespace SAMDKVStore

/-- Method `exists(key)` (SAMD.cpp lines 50-52):
`return WiFiDrv::prefGetType(key) != PT_INVALID;`. -/
def exists_ {W : Type} (wd : WiFiDrv W) (key : CStr) (w : W) : Bool × W :=
  (decide ((wd.prefGetType key w).1 ≠ wd.PT_INVALID), (wd.prefGetType key w).2)

/-- Method `getString(key, value, maxLen)` (SAMD.cpp lines 212-221): the result
of `prefGet` is dropped and the local `len`, a copy of `maxLen`, is returned. -/
def getString {W : Type} (wd : WiFiDrv W) (key : CStr) (value : Buf) (maxLen : Nat) (w : W) :
    (Nat × Buf) × W :=
  let e := exists_ wd key w
  if !e.1 then ((0, value), e.2) else
  let len := maxLen
  let g := wd.prefGet key wd.PT_STR value len e.2
  ((len, g.1.2), g.2)

end SAMDKVStore

/-! ## `PortentaC33KVStore`: `begin`, `end` and the interface it implements -/

/-- What `begin` and `end` of portentac33.cpp use besides the members of
`mbed::KVStore`: `BlockDevice::get_default_instance()`, `new TDBStore(root)` (the
pointer to the new object) and the two `delete` expressions. -/
structure MbedFactory (M : Type) where
  get_default_instance : M → Nat × M
  newTDBStore : Nat → M → Nat × M
  deleteKVStore : Nat → M → M
  deleteBlockDevice : Nat → M → M

namespace PortentaC33KVStore

/-- The object the constructor leaves (portentac33.cpp line 14):
`kvstore(nullptr), bd(nullptr)`. -/
def ctor : PortentaC33KVStore := { kvstore := none, bd := none }

/-- Method `begin(reformat, store)` (portentac33.cpp lines 20-37). -/
def begin2 {M : Type} (kv : MbedKVStore M) (fac : MbedFactory M) (self : PortentaC33KVStore)
    (_reformat : Bool) (store : Option Nat) (m : M) : Bool × PortentaC33KVStore × M :=
  if self.bd.isSome || self.kvstore.isSome then (false, self, m) else
  match store with
  | some p =>
    (decide ((kv.init p m).1 = kv.KVSTORE_SUCCESS), { self with kvstore := some p },
      (kv.init p m).2)
  | none =>
    let root := fac.get_default_instance m
    let t := fac.newTDBStore root.1 root.2
    (decide ((kv.init t.1 t.2).1 = kv.KVSTORE_SUCCESS), { self with kvstore := some t.1 },
      (kv.init t.1 t.2).2)

/-- Method `begin()` (portentac33.cpp lines 16-18): `return begin(false);`, the
store argument left to its default, the null pointer. -/
def begin_ {M : Type} (kv : MbedKVStore M) (fac : MbedFactory M) (self : PortentaC33KVStore)
    (m : M) : Bool × PortentaC33KVStore × M :=
  begin2 kv fac self false none m

/-- Method `end()` (portentac33.cpp lines 39-56). -/
def end_ {M : Type} (kv : MbedKVStore M) (fac : MbedFactory M) (self : PortentaC33KVStore)
    (m : M) : Bool × PortentaC33KVStore × M :=
  match self.kvstore, self.bd with
  | some p, none =>
    (decide ((kv.deinit p m).1 = kv.KVSTORE_SUCCESS), { self with kvstore := none },
      (kv.deinit p m).2)
  | some p, some b =>
    (decide ((kv.deinit p m).1 = kv.KVSTORE_SUCCESS), { kvstore := none, bd := none },
      fac.deleteBlockDevice b (fac.deleteKVStore p (kv.deinit p m).2))
  | none, _ => (false, self, m)

/-- The virtual functions of a `PortentaC33KVStore`, as seen through a
`KVStoreInterface<const char*>&`.  `info0` is the indeterminate initial
`info.size` of the local of `getBytesLength`. -/
def interface {M : Type} (kv : MbedKVStore M) (fac : MbedFactory M) (info0 : Nat) :
    KVStoreInterface (PortentaC33KVStore × M) CStr where
  begin_ st := ((begin_ kv fac st.1 st.2).1, (begin_ kv fac st.1 st.2).2)
  end_ st := ((end_ kv fac st.1 st.2).1, (end_ kv fac st.1 st.2).2)
  clear st := ((clear kv st.1 st.2).1, (st.1, (clear kv st.1 st.2).2))
  remove key st := ((remove kv st.1 key st.2).1, (st.1, (remove kv st.1 key st.2).2))
  exists_ key st :=
    ((exists_ kv st.1 key info0 st.2).1, (st.1, (exists_ kv st.1 key info0 st.2).2))
  putBytes key b s st :=
    ((putBytes kv st.1 key b s st.2).1, (st.1, (putBytes kv st.1 key b s st.2).2))
  getBytes key b s st :=
    ((getBytes kv st.1 key b s st.2).1, (st.1, (getBytes kv st.1 key b s st.2).2))
  getBytesLength key st :=
    ((getBytesLength kv st.1 key info0 st.2).1,
      (st.1, (getBytesLength kv st.1 key info0 st.2).2))

end PortentaC33KVStore

/-- A call of `begin(reformat, store)` or of `end()` on a Portenta store. -/
inductive PortentaOp where
  | begin2 (reformat : Bool) (store : Option Nat)
  | end_
  deriving DecidableEq

/-- One lifecycle call on a Portenta store and the underlying store state. -/
def PortentaC33KVStore.step {M : Type} (kv : MbedKVStore M) (fac : MbedFactory M)
    (st : PortentaC33KVStore × M) : PortentaOp → PortentaC33KVStore × M
  | .begin2 reformat store => (PortentaC33KVStore.begin2 kv fac st.1 reformat store st.2).2
  | .end_ => (PortentaC33KVStore.end_ kv fac st.1 st.2).2

/-- The state after a sequence of lifecycle calls.  The other member functions
assign neither `kvstore` nor `bd`. -/
def PortentaC33KVStore.run {M : Type} (kv : MbedKVStore M) (fac : MbedFactory M)
    (st : PortentaC33KVStore × M) (ops : List PortentaOp) : PortentaC33KVStore × M :=
  ops.foldl (PortentaC33KVStore.step kv fac) st

/-- Modelled from the spec: the allocation side of the mbed library, which is
not among the sources.  The default block device is object 1, every new
`TDBStore` is object 2, and deleting leaves the stored keys alone. -/
def mbedFactoryModel : MbedFactory (List (String × List Nat)) where
  get_default_instance m := (1, m)
  newTDBStore _ m := (2, m)
  deleteKVStore _ m := m
  deleteBlockDevice _ m := m

/-! ## The default Arduino `String` getter of the generic layer -/

/-- The Arduino `String` built from the C string at the start of a buffer. -/
def stringOfCBytes (l : List Nat) : String :=
  String.mk ((l.takeWhile (fun c => decide (c ≠ 0))).map Char.ofNat)

/-- Default `getString(key, const String defaultValue)` (kvstore.h lines
520-532).  `str0` holds the indeterminate bytes of the array `new char[len+1]`.
The parameter `defaultValue` does not occur in the body. -/
def KVStoreInterface.getStringArduino {S K : Type} (B : KVStoreInterface S K) (key : K)
    (_defaultValue : String) (str0 : List Nat) (s : S) : String × S :=
  let len := B.getBytesLength key s
  let g := B.getString key (some str0) (len.1 + 1) len.2
  let str := (g.1.2.getD str0).set len.1 0
  (stringOfCBytes str, g.2)

/-! ## `Unor4KVStore` (UnoR4.cpp) -/

/-- Conversion of an integer to `int` (32 bits, two's complement). -/
def toInt32 (i : Int) : Int :=
  let u : Int := i % 2 ^ 32
  if (2 : Int) ^ 31 ≤ u then u - 2 ^ 32 else u

/-- Character class `isspace` of the C locale. -/
def isspace (c : Nat) : Bool := c == 32 || (decide (9 ≤ c) && decide (c ≤ 13))

/-- Character class `isdigit`. -/
def isdigit (c : Nat) : Bool := decide (48 ≤ c) && decide (c ≤ 57)

/-- The number the leading decimal digits of a byte string denote, continuing
from `acc`. -/
def digitsValue : List Nat → Nat → Nat
  | [], acc => acc
  | c :: cs, acc => if isdigit c then digitsValue cs (10 * acc + (c - 48)) else acc

/-- Function `atoi`: leading white space, an optional sign, decimal digits; the
result as an `int`. -/
def atoi (s : List Nat) : Int :=
  match s.dropWhile isspace with
  | [] => 0
  | c :: r =>
    if c = 45 then toInt32 (-(digitsValue r 0 : Int))
    else if c = 43 then toInt32 (digitsValue r 0)
    else toInt32 (digitsValue (c :: r) 0)

/-- The numeric values of the enumeration `Unor4KVStore::Type` (UnoR4.h lines
23-25), which has the enumerators of `ESP32KVStore::Type` in the same order. -/
def PType.toNat : PType → Nat
  | .PT_I8 => 0 | .PT_U8 => 1 | .PT_I16 => 2 | .PT_U16 => 3 | .PT_I32 => 4 | .PT_U32 => 5
  | .PT_I64 => 6 | .PT_U64 => 7 | .PT_STR => 8 | .PT_BLOB => 9 | .PT_INVALID => 10

/-- Conversion `%d` of `printf`, applied to an `int`. -/
def fmt_d (i : Int) : String := toString i

/-- Conversion `%hu` of `printf`: the `int` argument is converted to
`unsigned short` (16 bits) and printed in decimal. -/
def fmt_hu (a : Int) : String := toString (a % 65536).toNat

/-- The string macros of the modem's AT command set that UnoR4.cpp uses; they
are defined by the modem library, not in the sources. -/
structure AtCommands where
  PROMPT : String → String
  CMD_WRITE : String → String
  _PREF_PUT : String
  _PREF_GET : String
  _PREF_LEN : String

/-- The member functions of the global `modem` object that the embedded
functions call, over the state `Mo` of the modem.  `write prompt res text` and
`write_nowait prompt res text` take the prompt, the response string `res` as
it is before the call and the formatted command text, and return `res` as the
call leaves it; `passthrough` takes the data pointer and the length. -/
structure Modem (Mo : Type) where
  write : String → List Nat → String → Mo → (Bool × List Nat) × Mo
  write_nowait : String → List Nat → String → Mo → List Nat × Mo
  passthrough : Buf → Nat → Mo → Bool × Mo
  read_using_size : Mo → Mo
  avoid_trim_results : Mo → Mo

namespace Unor4KVStore

/-- The argument `%hu` consumes in `put<T>`: the value itself for the types of
at most 32 bits, which are passed as one `int`; for a 64-bit type the `int` it
finds is not determined by the language, and is the parameter `va`. -/
def huArg (T : ScalarType) (value va : Int) : Int :=
  if sizeof T = 8 then va else value

/-- The decimal value field of the command of `put<T>`: the last conversion of
the format `"%s%s,%d,%hu\r\n"`. -/
def putValueField (T : ScalarType) (value va : Int) : String :=
  fmt_hu (huArg T value va)

/-- The command text of `put<T>`: the format `"%s%s,%d,%hu\r\n"` applied to
`CMD_WRITE(_PREF_PUT)`, the key, the type tag and the value (UnoR4.cpp lines
107, 118, 129, 140, 151, 162, 173, 184). -/
def putCommand (ac : AtCommands) (T : ScalarType) (key : CStr) (value va : Int) : String :=
  ac.CMD_WRITE ac._PREF_PUT ++ key.getD "" ++ "," ++ fmt_d (tagOf T).toNat ++ ","
    ++ putValueField T value va ++ "\r\n"

/-- The specialisations `put<int8_t>`, ..., `put<uint64_t>` (UnoR4.cpp lines
103-189); they differ in the type tag sent. -/
def put {Mo : Type} (md : Modem Mo) (ac : AtCommands) (T : ScalarType) (key : CStr)
    (value va : Int) (mo : Mo) : Int × Mo :=
  if key.isSome && decide (strlen key > 0) then
    let w := md.write (ac.PROMPT ac._PREF_PUT) [] (putCommand ac T key value va) mo
    if w.1.1 then (atoi w.1.2, w.2) else (0, w.2)
  else (0, mo)

/-- Method `getBytesLength(key)` (UnoR4.cpp lines 81-89). -/
def getBytesLength {Mo : Type} (md : Modem Mo) (ac : AtCommands) (key : CStr) (mo : Mo) :
    Nat × Mo :=
  if key.isSome && decide (strlen key > 0) then
    let w := md.write (ac.PROMPT ac._PREF_LEN) []
      (ac.CMD_WRITE ac._PREF_LEN ++ key.getD "" ++ "\r\n") mo
    if w.1.1 then (size_t_of_res_t (atoi w.1.2), w.2) else (0, w.2)
  else (0, mo)

/-- The command text of `getBytes`: the format `"%s%s,%d\r\n"` applied to
`CMD_WRITE(_PREF_GET)`, the key and `PT_BLOB` (UnoR4.cpp line 71). -/
def getBytesCommand (ac : AtCommands) (key : CStr) : String :=
  ac.CMD_WRITE ac._PREF_GET ++ key.getD "" ++ "," ++ fmt_d PType.PT_BLOB.toNat ++ "\r\n"

/-- Method `getBytes(key, buf, maxLen)` (UnoR4.cpp lines 65-79). -/
def getBytes {Mo : Type} (md : Modem Mo) (ac : AtCommands) (key : CStr) (buf : Buf)
    (maxLen : Nat) (mo : Mo) : (Int × Buf) × Mo :=
  let l := getBytesLength md ac key mo
  if key.isSome && decide (strlen key > 0) && buf.isSome && decide (l.1 > 0) then
    let w := md.write (ac.PROMPT ac._PREF_GET) [] (getBytesCommand ac key)
      (md.read_using_size (md.avoid_trim_results l.2))
    if w.1.1 then
      if decide (w.1.2.length ≥ l.1) && decide (l.1 ≤ maxLen) then
        ((res_t_of_size_t l.1, some (w.1.2.take l.1 ++ (buf.getD []).drop l.1)), w.2)
      else ((0, buf), w.2)
    else ((0, buf), w.2)
  else ((0, buf), l.2)

/-- The specialisation `put<const char*>` (UnoR4.cpp lines 191-201): the
announcement of `strlen(value)` bytes, then the bytes themselves. -/
def putCStr {Mo : Type} (md : Modem Mo) (ac : AtCommands) (key : CStr) (value : CStr)
    (mo : Mo) : Int × Mo :=
  if key.isSome && decide (strlen key > 0) && value.isSome && decide (strlen value > 0) then
    let w := md.write_nowait (ac.PROMPT ac._PREF_PUT) []
      (ac.CMD_WRITE ac._PREF_PUT ++ key.getD "" ++ "," ++ fmt_d PType.PT_STR.toNat ++ ","
        ++ fmt_d (res_t_of_size_t (strlen value)) ++ "\r\n") mo
    let p := md.passthrough (value.map cstrBytes) (strlen value) w.2
    if p.1 then (res_t_of_size_t (strlen value), p.2) else (0, p.2)
  else (0, mo)

/-- Method `putString(key, const char* value)` (UnoR4.cpp lines 227-229):
`return put(key, value);`, the `res_t` converted to `size_t`. -/
def putString {Mo : Type} (md : Modem Mo) (ac : AtCommands) (key : CStr) (value : CStr)
    (mo : Mo) : Nat × Mo :=
  (size_t_of_res_t (putCStr md ac key value mo).1, (putCStr md ac key value mo).2)

/-- The command text of `getString`: the format `"%s%s,%d,%s\r\n"` applied to
`CMD_WRITE(_PREF_GET)`, the key, `PT_STR` and the `std::string` object `res`
(UnoR4.cpp line 335); what `%s` prints for that object is not determined by the
language, and is the parameter `resText`. -/
def getStringCommand (ac : AtCommands) (key : CStr) (resText : String) : String :=
  ac.CMD_WRITE ac._PREF_GET ++ key.getD "" ++ "," ++ fmt_d PType.PT_STR.toNat ++ ","
    ++ resText ++ "\r\n"

/-- The bytes `strcpy` stores for a source string: up to and including its
first null byte. -/
def strcpyBytes (src : List Nat) : List Nat :=
  src.takeWhile (fun c => decide (c ≠ 0)) ++ [0]

/-- Method `getString(key, value, maxLen)` (UnoR4.cpp lines 331-347).  The
comparison is between `size_t` values, so `maxLen-1` is taken modulo `2^32`.
The buffer returned holds the bytes `strcpy` stored, followed by the bytes of
`value` beyond them. -/
def getString {Mo : Type} (md : Modem Mo) (ac : AtCommands) (key : CStr) (value : Buf)
    (maxLen : Nat) (resText : String) (mo : Mo) : (Nat × Buf) × Mo :=
  if key.isSome && decide (strlen key > 0) then
    let w := md.write (ac.PROMPT ac._PREF_GET) [] (getStringCommand ac key resText)
      (md.read_using_size mo)
    if w.1.1 then
      let res := w.1.2 ++ [0]
      if res.length > (maxLen + 2 ^ 32 - 1) % 2 ^ 32 then ((0, value), w.2)
      else
        ((res.length, some (strcpyBytes res ++ (value.getD []).drop (strcpyBytes res).length)),
          w.2)
    else ((0, value), w.2)
  else ((0, value), mo)

end Unor4KVStore

/-- One call of a member function of the modem, with its arguments. -/
inductive ModemCall where
  | write (prompt : String) (res : List Nat) (text : String)
  | write_nowait (prompt : String) (res : List Nat) (text : String)
  | passthrough (data : Buf) (len : Nat)
  | read_using_size
  | avoid_trim_results
  deriving DecidableEq

/-- The modem `md` with a journal: every member function behaves as in `md` and
appends itself to the list of calls made. -/
def Modem.traced {Mo : Type} (md : Modem Mo) : Modem (Mo × List ModemCall) where
  write p r t st :=
    ((md.write p r t st.1).1, ((md.write p r t st.1).2, st.2 ++ [ModemCall.write p r t]))
  write_nowait p r t st :=
    ((md.write_nowait p r t st.1).1,
      ((md.write_nowait p r t st.1).2, st.2 ++ [ModemCall.write_nowait p r t]))
  passthrough d len st :=
    ((md.passthrough d len st.1).1,
      ((md.passthrough d len st.1).2, st.2 ++ [ModemCall.passthrough d len]))
  read_using_size st := (md.read_using_size st.1, st.2 ++ [ModemCall.read_using_size])
  avoid_trim_results st :=
    (md.avoid_trim_results st.1, st.2 ++ [ModemCall.avoid_trim_results])

/-- A modem that answers from a script: each `write` takes the next scripted
answer (success flag and response bytes) and fails when the script is used up;
`write_nowait` leaves the response as it was and `passthrough` succeeds. -/
def scriptedModem : Modem (List (Bool × List Nat)) where
  write _ _ _ q :=
    match q with
    | [] => ((false, []), [])
    | a :: r => ((a.1, a.2), r)
  write_nowait _ res _ q := (res, q)
  passthrough _ _ q := (true, q)
  read_using_size q := q
  avoid_trim_results q := q

/-- The AT command strings used in examples. -/
def atExample : AtCommands where
  PROMPT x := x ++ ":"
  CMD_WRITE x := "AT" ++ x ++ "="
  _PREF_PUT := "+PREFPUT"
  _PREF_GET := "+PREFGET"
  _PREF_LEN := "+PREFLEN"

/-- The contract "fails without side effects" for one store object over the
NVS library `nvs`: whatever the arguments, the NVS state and the journal of NVS
calls made so far, `clear`, `remove`, `putBytes`, `put<T>` and `putString`
return 0 or false, `getBytes` and `getBytesLength` return 0 (the buffer
untouched), `exists` returns false, `getType` returns `PT_INVALID` and
`get<T>(k, d)` yields a proxy seeded with `d`, each handing back the NVS state
and the journal as they were. -/
def failsWithoutNvsCall {N : Type} (nvs : Nvs N) (self : ESP32KVStore) : Prop :=
  ∀ (T : ScalarType) (key : CStr) (v d : Int) (value buf : Buf) (len maxLen : Nat)
    (str : CStr) (astr : String) (n : N) (log : List NvsCall),
    ESP32KVStore.clear nvs.traced self (n, log) = (false, (n, log)) ∧
    ESP32KVStore.remove nvs.traced self key (n, log) = (0, (n, log)) ∧
    ESP32KVStore.putBytes nvs.traced self key value len (n, log) = (0, (n, log)) ∧
    ESP32KVStore.put nvs.traced self T key v (n, log) = (0, (n, log)) ∧
    ESP32KVStore.putString nvs.traced self key str (n, log) = (0, (n, log)) ∧
    ESP32KVStore.putStringArduino nvs.traced self key astr (n, log) = (0, (n, log)) ∧
    ESP32KVStore.getBytes nvs.traced self key buf maxLen (n, log) = ((0, buf), (n, log)) ∧
    ESP32KVStore.getBytesLength nvs.traced self key (n, log) = (0, (n, log)) ∧
    ESP32KVStore.exists_ nvs.traced self key (n, log) = (false, (n, log)) ∧
    ESP32KVStore.getType nvs.traced self key (n, log) = (.PT_INVALID, (n, log)) ∧
    ESP32KVStore.get nvs.traced self T key d (n, log) = (⟨key, d⟩, (n, log))

/-! ## The object representation round trip -/

theorem toBytes_length (n x : Nat) : (toBytes n x).length = n := by
  induction n generalizing x with
  | zero => rfl
  | succ n ih => simp [toBytes, ih]

theorem ofBytes_toBytes (n x : Nat) : ofBytes (toBytes n x) = x % 256 ^ n := by
  induction n generalizing x with
  | zero => simp [toBytes, ofBytes, Nat.mod_one]
  | succ n ih =>
    simp only [toBytes, ofBytes, ih, Nat.mod_mod]
    rw [pow_succ, mul_comm (256 ^ n) 256, Nat.mod_mul]

theorem rawBytes_length (T : ScalarType) (v : Int) : (rawBytes T v).length = sizeof T := by
  simp [rawBytes, toBytes_length]

theorem fromRaw_rawBytes (T : ScalarType) (v : Int) (h : inRange T v) :
    fromRaw T (rawBytes T v) = v := by
  have hl : (rawBytes T v).take (sizeof T) = rawBytes T v := by
    rw [List.take_of_length_le]; rw [rawBytes_length]
  unfold fromRaw
  rw [hl]
  unfold rawBytes
  rw [ofBytes_toBytes]
  cases T <;> simp [inRange, isSigned, bits, sizeof] at h ⊢ <;> omega

/-! ## The generic layer on a byte-faithful backend -/

theorem sizeof_pos (T : ScalarType) : 0 < sizeof T := by
  cases T <;> decide

theorem fromRaw_append (T : ScalarType) (b rest : List Nat) (h : b.length = sizeof T) :
    fromRaw T (b ++ rest) = fromRaw T b := by
  unfold fromRaw
  rw [List.take_append_of_le_length (le_of_eq h.symm)]

/-- On a byte-faithful backend, a successful generic `put<T>` stores the object
representation of the value. -/
theorem put_stores {S K : Type} (B : KVStoreInterface S K) (Stored : S → K → List Nat → Prop)
    (hB : ByteFaithful B Stored) (T : ScalarType) (k : K) (v : Int) (s : S)
    (hput : (B.put T k v s).1 = sizeof T) :
    Stored (B.put T k v s).2 k (rawBytes T v) := by
  have h := hB.putBytes_stores s k (rawBytes T v) (sizeof T) (sizeof_pos T) hput
  rwa [List.take_of_length_le (le_of_eq (rawBytes_length T v))] at h

/-- On a byte-faithful backend, the generic `get<T>` of a key holding
`sizeof(T)` bytes seeds the proxy with the value they represent, whatever the
default and the initial bytes of the local, and leaves the bytes stored. -/
theorem get_of_stored {S K : Type} (B : KVStoreInterface S K)
    (Stored : S → K → List Nat → Prop) (hB : ByteFaithful B Stored) (T : ScalarType) (k : K)
    (b : List Nat) (hb : b.length = sizeof T) (d : Int) (t0 : List Nat) (s : S)
    (hs : Stored s k b) :
    (B.get T k d t0 s).1 = ⟨k, fromRaw T b⟩ ∧ Stored (B.get T k d t0 s).2 k b := by
  have he := hB.exists_true s k b hs
  have hk := hB.exists_keeps s k b hs
  have hc := hB.getBytes_copies (B.exists_ k s).2 k b t0 (sizeof T) hk (le_of_eq hb)
  have hg := hB.getBytes_keeps (B.exists_ k s).2 k b t0 (sizeof T) hk
  unfold KVStoreInterface.get
  simp only [he, if_true, hc, Option.getD_some, fromRaw_append T b _ hb]
  exact ⟨trivial, hg⟩

/-- Reading a proxy is the generic `get<T>` of its key with the default 0. -/
theorem getValue_eq {S K : Type} {T : ScalarType} (B : KVStoreInterface S K)
    (r : reference K T) (t0 : List Nat) (s : S) :
    r.getValue B t0 s
      = ((B.get T r.key 0 t0 s).1.value, ⟨r.key, (B.get T r.key 0 t0 s).1.value⟩,
          (B.get T r.key 0 t0 s).2) := rfl

/-- Reading a proxy whose key does not exist yields 0, whatever the proxy
cached: `load()` passes no default to `get<T>`. -/
theorem getValue_absent {S K : Type} {T : ScalarType} (B : KVStoreInterface S K)
    (r : reference K T) (t0 : List Nat) (s : S) (h : (B.exists_ r.key s).1 = false) :
    (r.getValue B t0 s).1 = 0 := by
  rw [getValue_eq]
  simp [KVStoreInterface.get, h]

/-! ## The reference NVS under the ESP32 store is byte-faithful -/

theorem find_write (k : String) (it : NvsItem) (es : NvsEntries) :
    NvsEntries.find k (NvsEntries.write k it es) = some it := by
  simp [NvsEntries.write, NvsEntries.find]

theorem find_erase (k : String) (es : NvsEntries) :
    NvsEntries.find k (NvsEntries.erase k es) = none := by
  induction es with
  | nil => rfl
  | cons e es ih =>
    by_cases h : e.1 = k
    · simp [NvsEntries.erase, h, ih]
    · simp [NvsEntries.erase, NvsEntries.find, h, ih]

theorem nvsKeyOk_le (key : String) (h : nvsKeyOk key = true) : key.length ≤ 15 := by
  simp [nvsKeyOk] at h
  exact h.2

theorem esp32_putBytes_stores (st : ESP32KVStore × NvsEntries) (k : CStr) (mem : List Nat)
    (n : Nat) (hn : 0 < n)
    (h : ((ESP32KVStore.interface nvsModel).putBytes k (some mem) n st).1 = n) :
    esp32Stored ((ESP32KVStore.interface nvsModel).putBytes k (some mem) n st).2 k
      (mem.take n) := by
  obtain ⟨self, es⟩ := st
  have hn0 : ((n : Nat) : Int) ≠ 0 := by omega
  rcases k with _ | key
  · simp [ESP32KVStore.interface, ESP32KVStore.putBytes] at h
    omega
  · by_cases hs : self._started = true
    · by_cases hr : self._readOnly = true
      · simp [ESP32KVStore.interface, ESP32KVStore.putBytes, hs, hr] at h
        omega
      · by_cases hk : nvsKeyOk key = true
        · simp [ESP32KVStore.interface, ESP32KVStore.putBytes, hs, hr, hk, nvsModel, ESP_OK,
            esp32Stored, find_write, nvsKeyOk_le key hk, Nat.pos_iff_ne_zero.mp hn]
        · simp [ESP32KVStore.interface, ESP32KVStore.putBytes, hs, hr, hk, nvsModel,
            ESP_ERR_NVS_KEY_TOO_LONG, Nat.pos_iff_ne_zero.mp hn] at h
          omega
    · simp [ESP32KVStore.interface, ESP32KVStore.putBytes, hs] at h
      omega

theorem esp32_getType_blob (self : ESP32KVStore) (es : NvsEntries) (key : String)
    (b : List Nat) (hs : self._started = true) (hk : key.length ≤ 15)
    (hf : NvsEntries.find key es = some (.blob b)) :
    ESP32KVStore.getType nvsModel self (some key) es = (.PT_BLOB, es) := by
  have hk2 : ¬ 15 < key.length := by omega
  simp [ESP32KVStore.getType, hs, strlen, hk2, nvsModel, hf, ESP_OK, ESP_ERR_NVS_NOT_FOUND,
    nvsReadVar]

theorem esp32_getBytesLength_blob (self : ESP32KVStore) (es : NvsEntries) (key : String)
    (b : List Nat) (hs : self._started = true)
    (hf : NvsEntries.find key es = some (.blob b)) :
    ESP32KVStore.getBytesLength nvsModel self (some key) es = (b.length, es) := by
  simp [ESP32KVStore.getBytesLength, hs, nvsModel, hf, ESP_OK, nvsReadVar]

theorem esp32_getBytes_blob (self : ESP32KVStore) (es : NvsEntries) (key : String)
    (b buf : List Nat) (n : Nat) (hs : self._started = true)
    (hf : NvsEntries.find key es = some (.blob b)) (hn : b.length ≤ n) :
    (ESP32KVStore.getBytes nvsModel self (some key) (some buf) n es).1.2
        = some (b ++ buf.drop b.length) ∧
      (ESP32KVStore.getBytes nvsModel self (some key) (some buf) n es).2 = es := by
  unfold ESP32KVStore.getBytes
  rw [esp32_getBytesLength_blob self es key b hs hf]
  by_cases h0 : b.length = 0
  · have hb : b = [] := List.length_eq_zero.mp h0
    simp [hb]
  · by_cases hn0 : n = 0
    · omega
    · have hgt : ¬ n < b.length := by omega
      simp [h0, hn0, hgt, nvsModel, hf, nvsReadVar, ESP_OK]

/-- The ESP32 store over the reference NVS is a byte-faithful backend. -/
theorem esp32_byteFaithful : ByteFaithful (ESP32KVStore.interface nvsModel) esp32Stored where
  putBytes_stores := fun st k mem n hn h => esp32_putBytes_stores st k mem n hn h
  exists_true := by
    rintro ⟨self, es⟩ k b ⟨hs, key, rfl, hk, hf⟩
    simp [ESP32KVStore.interface, ESP32KVStore.exists_, esp32_getType_blob self es key b hs hk hf]
  exists_keeps := by
    rintro ⟨self, es⟩ k b ⟨hs, key, rfl, hk, hf⟩
    simp only [ESP32KVStore.interface, ESP32KVStore.exists_,
      esp32_getType_blob self es key b hs hk hf]
    exact ⟨hs, key, rfl, hk, hf⟩
  getBytes_copies := by
    rintro ⟨self, es⟩ k b buf n ⟨hs, key, rfl, _, hf⟩ hn
    exact (esp32_getBytes_blob self es key b buf n hs hf hn).1
  getBytes_keeps := by
    rintro ⟨self, es⟩ k b buf n ⟨hs, key, rfl, hk, hf⟩
    refine ⟨hs, key, rfl, hk, ?_⟩
    show NvsEntries.find key (ESP32KVStore.getBytes nvsModel self (some key) (some buf) n es).2
      = some (.blob b)
    have : (ESP32KVStore.getBytes nvsModel self (some key) (some buf) n es).2 = es := by
      unfold ESP32KVStore.getBytes
      rw [esp32_getBytesLength_blob self es key b hs hf]
      simp only [nvsModel, hf]
      split_ifs <;> rfl
    rw [this]; exact hf

/-! ## Claims about the generic layer and the proxy -/

/-- C1. Round trip on the generic layer: on a byte-faithful backend, for every
fixed-width integer type `T`, every value `v` of `T`, every key `k` and every
default `d`, after a generic `put<T>(k, v)` that reports `sizeof(T)` bytes
written, the proxy returned by `get<T>(k, d)` is seeded with `v`, and reading it
(by `getValue`, by dereference, by conversion) yields `v`. -/
theorem C1_generic_round_trip {S K : Type} (B : KVStoreInterface S K)
    (Stored : S → K → List Nat → Prop) (hB : ByteFaithful B Stored)
    (T : ScalarType) (v : Int) (hv : inRange T v) (k : K) (d : Int) (t0 t1 : List Nat) (s : S)
    (hput : (B.put T k v s).1 = sizeof T) :
    (B.get T k d t0 (B.put T k v s).2).1.value = v ∧
    ((B.get T k d t0 (B.put T k v s).2).1.getValue B t1
        (B.get T k d t0 (B.put T k v s).2).2).1 = v ∧
    ((B.get T k d t0 (B.put T k v s).2).1.deref B t1
        (B.get T k d t0 (B.put T k v s).2).2).1 = v ∧
    ((B.get T k d t0 (B.put T k v s).2).1.toT B t1
        (B.get T k d t0 (B.put T k v s).2).2).1 = v := by
  have h1 := put_stores B Stored hB T k v s hput
  obtain ⟨h2, h3⟩ :=
    get_of_stored B Stored hB T k (rawBytes T v) (rawBytes_length T v) d t0 _ h1
  obtain ⟨h4, -⟩ :=
    get_of_stored B Stored hB T k (rawBytes T v) (rawBytes_length T v) 0 t1 _ h3
  have hr : ((B.get T k d t0 (B.put T k v s).2).1.getValue B t1
      (B.get T k d t0 (B.put T k v s).2).2).1 = v := by
    rw [getValue_eq, h2]
    simp only [h4, fromRaw_rawBytes T v hv]
  refine ⟨?_, hr, hr, hr⟩
  rw [h2]
  exact fromRaw_rawBytes T v hv

/-- C1, at the ESP32 store over the reference NVS: the generic
`put<int32_t>("count", 42)`, then the generic `get<int32_t>("count", 0)`, read by
conversion. -/
theorem C1_generic_round_trip_witness :
    (((ESP32KVStore.interface nvsModel).get .int32_t (some "count") 0 [0, 0, 0, 0]
        ((ESP32KVStore.interface nvsModel).put .int32_t (some "count") 42
          (startedStore, [])).2).1.toT (ESP32KVStore.interface nvsModel) [0, 0, 0, 0]
      ((ESP32KVStore.interface nvsModel).get .int32_t (some "count") 0 [0, 0, 0, 0]
        ((ESP32KVStore.interface nvsModel).put .int32_t (some "count") 42
          (startedStore, [])).2).2).1 = 42 :=
  (C1_generic_round_trip (ESP32KVStore.interface nvsModel) esp32Stored esp32_byteFaithful
    .int32_t 42 (by decide) (some "count") 0 [0, 0, 0, 0] [0, 0, 0, 0] (startedStore, [])
    (by decide)).2.2.2

/-- On a started ESP32 store with no entries, no key exists. -/
theorem esp32_empty_exists (k : String) :
    (ESP32KVStore.interface nvsModel).exists_ (some k) (startedStore, [])
      = (false, (startedStore, [])) := by
  by_cases hk : 15 < k.length <;>
    simp [ESP32KVStore.interface, ESP32KVStore.exists_, ESP32KVStore.getType, startedStore,
      strlen, hk, nvsModel, NvsEntries.find, ESP_OK, ESP_ERR_NVS_NOT_FOUND]

/-- On a started ESP32 store with no entries, the generic `get<T>` seeds its
proxy with the default it is given. -/
theorem esp32_empty_get (T : ScalarType) (k : String) (x : Int) (u : List Nat) :
    (ESP32KVStore.interface nvsModel).get T (some k) x u (startedStore, [])
      = (⟨some k, x⟩, (startedStore, [])) := by
  simp [KVStoreInterface.get, esp32_empty_exists k]

/-- C2. Absence default, at its failing input: on a started ESP32 store with no
entries, for every type `T`, key and default `d`, the key does not exist and the
generic `get<T>(key, d)` seeds its proxy with `d`, but every read of that proxy
(`getValue`, dereference, conversion, and so every typed getter) yields 0, not
`d`: `getInt("missing", 5)` is 0. -/
theorem C2_absent_read_yields_zero (T : ScalarType) (key : String) (d : Int)
    (t0 t1 : List Nat) :
    ((ESP32KVStore.interface nvsModel).exists_ (some key) (startedStore, [])).1 = false ∧
    ((ESP32KVStore.interface nvsModel).get T (some key) d t0 (startedStore, [])).1.value = d ∧
    (((ESP32KVStore.interface nvsModel).get T (some key) d t0 (startedStore, [])).1.deref
      (ESP32KVStore.interface nvsModel) t1
      ((ESP32KVStore.interface nvsModel).get T (some key) d t0 (startedStore, [])).2).1 = 0 ∧
    (((ESP32KVStore.interface nvsModel).get T (some key) d t0 (startedStore, [])).1.toT
      (ESP32KVStore.interface nvsModel) t1
      ((ESP32KVStore.interface nvsModel).get T (some key) d t0 (startedStore, [])).2).1 = 0 ∧
    ((ESP32KVStore.interface nvsModel).getTyped T (some key) d t0 t1 (startedStore, [])).1 = 0 ∧
    ((ESP32KVStore.interface nvsModel).getInt (some "missing") 5 t0 t1 (startedStore, [])).1
      = 0 := by
  have he := esp32_empty_exists
  have hg := esp32_empty_get T
  refine ⟨by rw [he], by rw [hg], ?_, ?_, ?_, ?_⟩
  · rw [hg]; simp [reference.deref, getValue_eq, hg]
  · rw [hg]; simp [reference.toT, getValue_eq, hg]
  · simp [KVStoreInterface.getTyped, reference.toT, getValue_eq, hg]
  · simp [KVStoreInterface.getInt, KVStoreInterface.getTyped, reference.toT, getValue_eq,
      KVStoreInterface.get, he]

/-- C3. For every scalar type `T`, key `k` and value `v`, the generic
`put<T>(k, v)` is the one call `putBytes(k, bytes, sizeof(T))` on the
`sizeof(T)`-byte object representation of `v` (1, 2, 4 or 8 bytes), with that
call's result returned unchanged; the journal of a traced backend grows by
exactly that call. -/
theorem C3_put_is_one_putBytes {S K : Type} (B : KVStoreInterface S K) (T : ScalarType)
    (k : K) (v : Int) (s : S) (log : List (Call K)) :
    B.put T k v s = B.putBytes k (some (rawBytes T v)) (sizeof T) s ∧
    (rawBytes T v).length = sizeof T ∧
    (sizeof T = 1 ∨ sizeof T = 2 ∨ sizeof T = 4 ∨ sizeof T = 8) ∧
    (B.traced.put T k v (s, log)).1 = (B.putBytes k (some (rawBytes T v)) (sizeof T) s).1 ∧
    (B.traced.put T k v (s, log)).2
      = ((B.putBytes k (some (rawBytes T v)) (sizeof T) s).2,
          log ++ [Call.putBytes k (some (rawBytes T v)) (sizeof T)]) := by
  refine ⟨rfl, rawBytes_length T v, ?_, rfl, rfl⟩
  cases T <;> simp [sizeof]

/-- C5. Write-through assignment: for every proxy `r` and value `t`, `r = t`
leaves a proxy with the same key and cached value `t`, whatever the backend
does; the store state is the one the generic `put<T>(key, t)` leaves, and the
journal of a traced backend grows by exactly one `putBytes` call, on the key and
the object representation of `t`.  The result of the write is not part of what
the assignment returns. -/
theorem C5_assignment_writes_through {S K : Type} {T : ScalarType}
    (B : KVStoreInterface S K) (r : reference K T) (t : Int) (s : S) (log : List (Call K)) :
    (r.assign B t s).1 = ⟨r.key, t⟩ ∧
    (r.assign B t s).2 = (B.put T r.key t s).2 ∧
    (r.assign B.traced t (s, log)).1 = ⟨r.key, t⟩ ∧
    (r.assign B.traced t (s, log)).2
      = ((B.put T r.key t s).2,
          log ++ [Call.putBytes r.key (some (rawBytes T t)) (sizeof T)]) :=
  ⟨rfl, rfl, rfl, rfl⟩

/-- Read-through on the generic path: every read of a proxy (dereference,
conversion, `getValue`) returns the value the generic `get<T>(key, 0)` loads
from the backend at that moment, and caches it; so on a byte-faithful backend,
once the generic `KVStoreInterface::put<T>(k, w)` has reported `sizeof(T)` bytes
written, a proxy for `k` created earlier with any cached value `c` reads `w`. -/
theorem read_through_generic_put {S K : Type} (B : KVStoreInterface S K)
    (Stored : S → K → List Nat → Prop) (hB : ByteFaithful B Stored)
    (T : ScalarType) (k : K) (c w : Int) (hw : inRange T w) (t0 : List Nat) (s : S)
    (hput : (B.put T k w s).1 = sizeof T) :
    (∀ (r : reference K T) (u : List Nat) (s0 : S),
      r.getValue B u s0
          = ((B.get T r.key 0 u s0).1.value, ⟨r.key, (B.get T r.key 0 u s0).1.value⟩,
              (B.get T r.key 0 u s0).2) ∧
        r.deref B u s0 = r.getValue B u s0 ∧ r.toT B u s0 = r.getValue B u s0) ∧
    ((⟨k, c⟩ : reference K T).getValue B t0 (B.put T k w s).2).1 = w ∧
    ((⟨k, c⟩ : reference K T).deref B t0 (B.put T k w s).2).1 = w ∧
    ((⟨k, c⟩ : reference K T).toT B t0 (B.put T k w s).2).1 = w ∧
    ((⟨k, c⟩ : reference K T).getValue B t0 (B.put T k w s).2).2.1 = ⟨k, w⟩ := by
  have h1 := put_stores B Stored hB T k w s hput
  obtain ⟨h2, -⟩ :=
    get_of_stored B Stored hB T k (rawBytes T w) (rawBytes_length T w) 0 t0 _ h1
  have hr : ((⟨k, c⟩ : reference K T).getValue B t0 (B.put T k w s).2).1 = w := by
    rw [getValue_eq]
    simp only [h2, fromRaw_rawBytes T w hw]
  refine ⟨fun r u s0 => ⟨rfl, rfl, rfl⟩, hr, hr, hr, ?_⟩
  rw [getValue_eq]
  simp only [h2, fromRaw_rawBytes T w hw]

/-- At the ESP32 store over the reference NVS, a proxy for "count" caching 7
reads 42 after the generic `KVStoreInterface::put<int32_t>("count", 42)`, which
stores the four bytes as a blob. -/
theorem read_through_generic_put_esp32 :
    ((⟨some "count", 7⟩ : reference CStr .int32_t).deref (ESP32KVStore.interface nvsModel)
      [0, 0, 0, 0]
      ((ESP32KVStore.interface nvsModel).put .int32_t (some "count") 42
        (startedStore, [])).2).1 = 42 :=
  (read_through_generic_put (ESP32KVStore.interface nvsModel) esp32Stored esp32_byteFaithful
    .int32_t (some "count") 7 42 (by decide) [0, 0, 0, 0] (startedStore, [])
    (by decide)).2.2.1

/-- C6. Every read of a proxy reloads through the generic `get<T>(key, 0)`, but
a direct `put<int32_t>` on an ESP32 store is the typed specialisation, whose
entry that reload cannot read.  On the reference NVS: a proxy for "count" taken
while the key is absent caches 7; `put<int32_t>("count", 42)` then returns 4
and leaves a typed entry, `exists("count")` is true and the typed
`get<int32_t>("count", 7)` is seeded with 42; but `getBytes` on the key returns
0 and leaves the buffer alone, so every read of the proxy (`getValue`,
dereference, conversion) returns the indeterminate local `t0` of the generic
`get`: 9 when its bytes are `{9, 0, 0, 0}`, not 42, and `getInt("count", 0)`
returns 9 as well. -/
theorem C6_typed_put_not_read_back (c : Int) (t0 : List Nat) :
    (ESP32KVStore.get nvsModel startedStore .int32_t (some "count") 7 []).1
      = ⟨some "count", 7⟩ ∧
    ESP32KVStore.put nvsModel startedStore .int32_t (some "count") 42 []
      = (4, [("count", NvsItem.int .int32_t 42)]) ∧
    ((ESP32KVStore.interface nvsModel).exists_ (some "count")
        (startedStore, [("count", NvsItem.int .int32_t 42)])).1 = true ∧
    (ESP32KVStore.get nvsModel startedStore .int32_t (some "count") 7
        [("count", NvsItem.int .int32_t 42)]).1 = ⟨some "count", 42⟩ ∧
    ((ESP32KVStore.interface nvsModel).getBytes (some "count") (some t0) 4
        (startedStore, [("count", NvsItem.int .int32_t 42)])).1 = (0, some t0) ∧
    ((⟨some "count", c⟩ : reference CStr .int32_t).getValue (ESP32KVStore.interface nvsModel)
        t0 (startedStore, [("count", NvsItem.int .int32_t 42)])).1 = fromRaw .int32_t t0 ∧
    ((⟨some "count", c⟩ : reference CStr .int32_t).deref (ESP32KVStore.interface nvsModel)
        t0 (startedStore, [("count", NvsItem.int .int32_t 42)])).1 = fromRaw .int32_t t0 ∧
    ((⟨some "count", c⟩ : reference CStr .int32_t).toT (ESP32KVStore.interface nvsModel)
        t0 (startedStore, [("count", NvsItem.int .int32_t 42)])).1 = fromRaw .int32_t t0 ∧
    ((⟨some "count", 7⟩ : reference CStr .int32_t).deref (ESP32KVStore.interface nvsModel)
        [9, 0, 0, 0]
        (startedStore,
          (ESP32KVStore.put nvsModel startedStore .int32_t (some "count") 42 []).2)).1 = 9 ∧
    ((ESP32KVStore.interface nvsModel).getInt (some "count") 0 [8, 0, 0, 0] [9, 0, 0, 0]
        (startedStore,
          (ESP32KVStore.put nvsModel startedStore .int32_t (some "count") 42 []).2)).1 = 9 := by
  have he : (ESP32KVStore.interface nvsModel).exists_ (some "count")
      (startedStore, [("count", NvsItem.int .int32_t 42)])
        = (true, (startedStore, [("count", NvsItem.int .int32_t 42)])) := by decide
  have hl : ESP32KVStore.getBytesLength nvsModel startedStore (some "count")
      [("count", NvsItem.int .int32_t 42)] = (0, [("count", NvsItem.int .int32_t 42)]) := by
    decide
  have hg : (ESP32KVStore.interface nvsModel).getBytes (some "count") (some t0) 4
      (startedStore, [("count", NvsItem.int .int32_t 42)])
        = ((0, some t0), (startedStore, [("count", NvsItem.int .int32_t 42)])) := by
    simp [ESP32KVStore.interface, ESP32KVStore.getBytes, hl, res_t_of_size_t]
  have hr : ((⟨some "count", c⟩ : reference CStr .int32_t).getValue
      (ESP32KVStore.interface nvsModel) t0
        (startedStore, [("count", NvsItem.int .int32_t 42)])).1 = fromRaw .int32_t t0 := by
    rw [getValue_eq]
    simp [KVStoreInterface.get, he, hg, sizeof]
  refine ⟨by decide, by decide, by decide, by decide, ?_, hr, hr, hr, by decide, by decide⟩
  rw [hg]

/-! ## Claims about the ESP32 store -/

/-- The store object `begin()` leaves on the reference NVS. -/
theorem startedStore_begun (h : Nat) (ro : Bool) (n : NvsEntries) :
    ESP32KVStore.begin_ nvsModel
        { name := DEFAULT_KVSTORE_NAME, _handle := h, _started := false, _readOnly := ro } n
      = (true, startedStore, n) := by
  simp [ESP32KVStore.begin_, ESP32KVStore.begin3, nvsModel, startedStore, ESP_OK]

theorem firstSuccess_invalid_iff {σ : Type} (ps : List (PType × (σ → esp_err_t × σ)))
    (hps : ∀ p ∈ ps, p.1 ≠ PType.PT_INVALID) (st : σ) :
    (firstSuccess ps st).1 = PType.PT_INVALID ↔ allFail ps st := by
  induction ps generalizing st with
  | nil => simp [firstSuccess, allFail]
  | cons p ps ih =>
    have hp : p.1 ≠ PType.PT_INVALID := hps p (List.mem_cons_self p ps)
    have ih2 := ih (fun q hq => hps q (List.mem_cons_of_mem p hq)) (p.2 st).2
    by_cases h : (p.2 st).1 = ESP_OK
    · simp [firstSuccess, allFail, h, hp]
    · simp [firstSuccess, allFail, h, ih2]

theorem firstSuccess_typed {N : Type} (nvs : Nvs N) (t : ScalarType) (h : Nat) (key : CStr)
    (tag : PType) (ps : List (PType × (Nat × N → esp_err_t × (Nat × N)))) (l : Nat) (n : N) :
    ((firstSuccess ((tag, typedProbe nvs t h key) :: ps) (l, n)).1,
        (firstSuccess ((tag, typedProbe nvs t h key) :: ps) (l, n)).2.2)
      = if (nvs.nvs_get t h key n).1.1 = ESP_OK then (tag, (nvs.nvs_get t h key n).2)
        else ((firstSuccess ps (l, (nvs.nvs_get t h key n).2)).1,
          (firstSuccess ps (l, (nvs.nvs_get t h key n).2)).2.2) := by
  simp only [firstSuccess, typedProbe]
  split_ifs <;> rfl

theorem firstSuccess_str {N : Type} (nvs : Nvs N) (h : Nat) (key : CStr)
    (tag : PType) (ps : List (PType × (Nat × N → esp_err_t × (Nat × N)))) (l : Nat) (n : N) :
    ((firstSuccess ((tag, strProbe nvs h key) :: ps) (l, n)).1,
        (firstSuccess ((tag, strProbe nvs h key) :: ps) (l, n)).2.2)
      = if (nvs.nvs_get_str h key none l n).1.1 = ESP_OK
        then (tag, (nvs.nvs_get_str h key none l n).2)
        else ((firstSuccess ps ((nvs.nvs_get_str h key none l n).1.2.2,
                (nvs.nvs_get_str h key none l n).2)).1,
          (firstSuccess ps ((nvs.nvs_get_str h key none l n).1.2.2,
                (nvs.nvs_get_str h key none l n).2)).2.2) := by
  simp only [firstSuccess, strProbe]
  split_ifs <;> rfl

theorem firstSuccess_blob {N : Type} (nvs : Nvs N) (h : Nat) (key : CStr)
    (tag : PType) (l : Nat) (n : N) :
    ((firstSuccess [(tag, blobProbe nvs h key)] (l, n)).1,
        (firstSuccess [(tag, blobProbe nvs h key)] (l, n)).2.2)
      = if (nvs.nvs_get_blob h key none l n).1.1 = ESP_OK
        then (tag, (nvs.nvs_get_blob h key none l n).2)
        else (PType.PT_INVALID, (nvs.nvs_get_blob h key none l n).2) := by
  simp only [firstSuccess, blobProbe]
  split_ifs <;> rfl

/-- For a started store and a key of legal length, `getType` runs the
first-success search over the ten probes. -/
theorem getType_eq_firstSuccess {N : Type} (nvs : Nvs N) (self : ESP32KVStore)
    (key : String) (n : N) (hs : self._started = true) (hk : key.length ≤ 15) :
    ESP32KVStore.getType nvs self (some key) n
      = ((firstSuccess (discoveryProbes nvs self._handle (some key)) (0, n)).1,
          (firstSuccess (discoveryProbes nvs self._handle (some key)) (0, n)).2.2) := by
  have hk2 : ¬ 15 < key.length := by omega
  have hguard : ¬ ((!self._started || (some key : CStr).isNone
      || decide (strlen (some key) > 15)) = true) := by
    simp [hs, strlen, hk2]
  unfold ESP32KVStore.getType
  rw [if_neg hguard]
  symm
  rw [discoveryProbes, firstSuccess_typed, firstSuccess_typed, firstSuccess_typed,
    firstSuccess_typed, firstSuccess_typed, firstSuccess_typed, firstSuccess_typed,
    firstSuccess_typed, firstSuccess_str, firstSuccess_blob]

/-- C8. Type discovery order: for a started store and a key of at most 15
characters, `getType` is the first-success search over the ten probes in the
order `PT_I8, PT_U8, PT_I16, PT_U16, PT_I32, PT_U32, PT_I64, PT_U64, PT_STR,
PT_BLOB`; it returns `PT_INVALID` exactly when all ten probes fail; and
`exists` is true exactly when `getType` is not `PT_INVALID`. -/
theorem C8_getType_first_success {N : Type} (nvs : Nvs N) (self : ESP32KVStore)
    (key : String) (n : N) (hs : self._started = true) (hk : key.length ≤ 15) :
    (discoveryProbes nvs self._handle (some key)).map Prod.fst
        = [.PT_I8, .PT_U8, .PT_I16, .PT_U16, .PT_I32, .PT_U32, .PT_I64, .PT_U64,
            .PT_STR, .PT_BLOB] ∧
    ESP32KVStore.getType nvs self (some key) n
        = ((firstSuccess (discoveryProbes nvs self._handle (some key)) (0, n)).1,
            (firstSuccess (discoveryProbes nvs self._handle (some key)) (0, n)).2.2) ∧
    ((ESP32KVStore.getType nvs self (some key) n).1 = .PT_INVALID ↔
        allFail (discoveryProbes nvs self._handle (some key)) (0, n)) ∧
    ((ESP32KVStore.exists_ nvs self (some key) n).1 = true ↔
        (ESP32KVStore.getType nvs self (some key) n).1 ≠ .PT_INVALID) := by
  have hg := getType_eq_firstSuccess nvs self key n hs hk
  refine ⟨rfl, hg, ?_, ?_⟩
  · rw [hg]
    apply firstSuccess_invalid_iff
    intro p hp
    simp only [discoveryProbes, List.mem_cons, List.mem_singleton, List.not_mem_nil,
      or_false] at hp
    rcases hp with h | h | h | h | h | h | h | h | h | h <;> rw [h] <;> simp
  · simp [ESP32KVStore.exists_]

/-- C8, on the reference NVS holding an `int32_t` under "count". -/
theorem C8_getType_first_success_witness :
    (ESP32KVStore.getType nvsModel startedStore (some "count")
        [("count", NvsItem.int .int32_t 42)]).1 = .PT_I32 ∧
    ((ESP32KVStore.exists_ nvsModel startedStore (some "count")
        [("count", NvsItem.int .int32_t 42)]).1 = true ↔
      (ESP32KVStore.getType nvsModel startedStore (some "count")
        [("count", NvsItem.int .int32_t 42)]).1 ≠ .PT_INVALID) :=
  ⟨by decide,
    (C8_getType_first_success nvsModel startedStore "count"
      [("count", NvsItem.int .int32_t 42)] rfl (by decide)).2.2.2⟩

/-- The reference NVS keeps the typed-entry discipline. -/
theorem nvsModel_typedReads : TypedReads nvsModel modelHasType where
  set_tags := by
    intro t h k v n hok
    rcases k with _ | key
    · simp [nvsModel, ESP_OK, ESP_ERR_INVALID_ARG] at hok
    · by_cases hk : nvsKeyOk key = true
      · exact ⟨key, v, rfl, by simp [nvsModel, hk, find_write]⟩
      · simp [nvsModel, hk, ESP_OK, ESP_ERR_NVS_KEY_TOO_LONG] at hok
  commit_keeps := fun _ _ _ _ hn => hn
  get_keeps := by
    rintro t1 h n k t ⟨key, v, rfl, hf⟩
    refine ⟨key, v, rfl, ?_⟩
    simp only [nvsModel, hf]
    split_ifs <;> exact hf
  get_ok_iff := by
    rintro t1 h n k t ⟨key, v, rfl, hf⟩
    by_cases ht : t = t1
    · simp [nvsModel, hf, ht]
    · have ht2 : ¬ t1 = t := fun e => ht e.symm
      simp [nvsModel, hf, ht, ht2, ESP_OK, ESP_ERR_NVS_NOT_FOUND]

/-- C10. Key-length short-circuit: when the store is not started, or the key is
null, or the key is longer than 15 characters, `getType` returns `PT_INVALID`
and `exists` returns false with the NVS state untouched; run against a traced
NVS, the journal of NVS calls is left as it was. -/
theorem C10_getType_short_circuit {N : Type} (nvs : Nvs N) (self : ESP32KVStore)
    (key : CStr) (n : N) (log : List NvsCall)
    (h : self._started = false ∨ key = none ∨ 15 < strlen key) :
    ESP32KVStore.getType nvs self key n = (.PT_INVALID, n) ∧
    ESP32KVStore.exists_ nvs self key n = (false, n) ∧
    ESP32KVStore.getType nvs.traced self key (n, log) = (.PT_INVALID, (n, log)) ∧
    ESP32KVStore.exists_ nvs.traced self key (n, log) = (false, (n, log)) := by
  have hguard : (!self._started || key.isNone || decide (strlen key > 15)) = true := by
    rcases h with h | h | h
    · simp [h]
    · simp [h]
    · simp [h]
  have hg : ∀ {M : Type} (x : Nvs M) (m : M),
      ESP32KVStore.getType x self key m = (.PT_INVALID, m) := by
    intro M x m
    unfold ESP32KVStore.getType
    rw [if_pos hguard]
  refine ⟨hg nvs n, ?_, hg nvs.traced (n, log), ?_⟩
  · simp [ESP32KVStore.exists_, hg nvs n]
  · simp [ESP32KVStore.exists_, hg nvs.traced (n, log)]

/-- C10, on the reference NVS with a key of 16 characters. -/
theorem C10_getType_short_circuit_witness :
    ESP32KVStore.getType nvsModel.traced startedStore (some "0123456789abcdef")
        ([("0123456789abcdef", NvsItem.int .int8_t 1)], [])
      = (.PT_INVALID, ([("0123456789abcdef", NvsItem.int .int8_t 1)], [])) :=
  (C10_getType_short_circuit nvsModel startedStore (some "0123456789abcdef")
    [("0123456789abcdef", NvsItem.int .int8_t 1)] [] (Or.inr (Or.inr (by decide)))).2.2.1

/-- C4. Length mismatch, at its failing input: on a started ESP32 store, after
`putBytes("k", {1, 2}, 2)` the key exists with 2 stored bytes, and the generic
`get<int32_t>("k", d)` seeds its proxy, for every default `d`, with the two
stored bytes followed by the two last indeterminate bytes of the local `t`
(513 when those are zero), not with `d`; after a `putBytes` of 8 bytes, `getBytes`
returns 0 and the proxy is seeded with the indeterminate bytes of `t` alone. -/
theorem C4_length_mismatch_not_rejected (d : Int) (a b c e : Nat) :
    (ESP32KVStore.interface nvsModel).putBytes (some "k") (some [1, 2]) 2 (startedStore, [])
      = (2, (startedStore, [("k", NvsItem.blob [1, 2])])) ∧
    ((ESP32KVStore.interface nvsModel).exists_ (some "k")
      (startedStore, [("k", NvsItem.blob [1, 2])])).1 = true ∧
    ((ESP32KVStore.interface nvsModel).getBytes (some "k") (some [a, b, c, e]) 4
      (startedStore, [("k", NvsItem.blob [1, 2])])).1 = (2, some [1, 2, c, e]) ∧
    ((ESP32KVStore.interface nvsModel).get .int32_t (some "k") d [a, b, c, e]
      (startedStore, [("k", NvsItem.blob [1, 2])])).1.value = fromRaw .int32_t [1, 2, c, e] ∧
    ((ESP32KVStore.interface nvsModel).get .int32_t (some "k") 7 [0, 0, 0, 0]
      (startedStore, [("k", NvsItem.blob [1, 2])])).1.value = 513 ∧
    (ESP32KVStore.interface nvsModel).putBytes (some "k") (some [1, 2, 3, 4, 5, 6, 7, 8]) 8
        (startedStore, [])
      = (8, (startedStore, [("k", NvsItem.blob [1, 2, 3, 4, 5, 6, 7, 8])])) ∧
    ((ESP32KVStore.interface nvsModel).getBytes (some "k") (some [a, b, c, e]) 4
      (startedStore, [("k", NvsItem.blob [1, 2, 3, 4, 5, 6, 7, 8])])).1
        = (0, some [a, b, c, e]) ∧
    ((ESP32KVStore.interface nvsModel).get .int32_t (some "k") d [a, b, c, e]
      (startedStore, [("k", NvsItem.blob [1, 2, 3, 4, 5, 6, 7, 8])])).1.value
        = fromRaw .int32_t [a, b, c, e] := by
  have hf2 : NvsEntries.find "k" [("k", NvsItem.blob [1, 2])] = some (.blob [1, 2]) := by
    decide
  have hf8 : NvsEntries.find "k" [("k", NvsItem.blob [1, 2, 3, 4, 5, 6, 7, 8])]
      = some (.blob [1, 2, 3, 4, 5, 6, 7, 8]) := by decide
  have hs : startedStore._started = true := rfl
  have hk : "k".length ≤ 15 := by decide
  have ht2 := esp32_getType_blob startedStore _ "k" _ hs hk hf2
  have ht8 := esp32_getType_blob startedStore _ "k" _ hs hk hf8
  have hl2 := esp32_getBytesLength_blob startedStore _ "k" _ hs hf2
  have hl8 := esp32_getBytesLength_blob startedStore _ "k" _ hs hf8
  have hg2 : ESP32KVStore.getBytes nvsModel startedStore (some "k") (some [a, b, c, e]) 4
      [("k", NvsItem.blob [1, 2])]
      = ((2, some [1, 2, c, e]), [("k", NvsItem.blob [1, 2])]) := by
    unfold ESP32KVStore.getBytes
    rw [hl2]
    simp [nvsModel, hf2, nvsReadVar, ESP_OK, res_t_of_size_t]
  have hg8 : ESP32KVStore.getBytes nvsModel startedStore (some "k") (some [a, b, c, e]) 4
      [("k", NvsItem.blob [1, 2, 3, 4, 5, 6, 7, 8])]
      = ((0, some [a, b, c, e]), [("k", NvsItem.blob [1, 2, 3, 4, 5, 6, 7, 8])]) := by
    unfold ESP32KVStore.getBytes
    rw [hl8]
    simp
  refine ⟨by decide, ?_, ?_, ?_, by decide, by decide, ?_, ?_⟩
  · simp [ESP32KVStore.interface, ESP32KVStore.exists_, ht2]
  · simp [ESP32KVStore.interface, hg2]
  · simp [KVStoreInterface.get, ESP32KVStore.interface, ESP32KVStore.exists_, ht2, sizeof, hg2]
  · simp [ESP32KVStore.interface, hg8]
  · simp [KVStoreInterface.get, ESP32KVStore.interface, ESP32KVStore.exists_, ht8, sizeof, hg8]

/-- C7. Remove-then-absent, at its failing input: on a started, writable ESP32
store, `put<int32_t>("count", 42)` returns 4 and `remove("count")` succeeds;
afterwards `exists("count")` is false and `get<int32_t>("count", d)` (the ESP32
specialisation and the generic one alike) seeds its proxy with `d`, but reading
that proxy yields 0 for every `d`: with `d = 5` the read is 0, not 5. -/
theorem C7_remove_then_read_yields_zero (d : Int) (t0 t1 : List Nat) :
    ESP32KVStore.put nvsModel startedStore .int32_t (some "count") 42 []
      = (4, [("count", NvsItem.int .int32_t 42)]) ∧
    ESP32KVStore.remove nvsModel startedStore (some "count")
        [("count", NvsItem.int .int32_t 42)] = (1, []) ∧
    ESP32KVStore.exists_ nvsModel startedStore (some "count") [] = (false, []) ∧
    ESP32KVStore.get nvsModel startedStore .int32_t (some "count") d []
      = (⟨some "count", d⟩, []) ∧
    ((⟨some "count", d⟩ : reference CStr .int32_t).toT (ESP32KVStore.interface nvsModel) t1
      (startedStore, [])).1 = 0 ∧
    ((⟨some "count", d⟩ : reference CStr .int32_t).deref (ESP32KVStore.interface nvsModel) t1
      (startedStore, [])).1 = 0 ∧
    ((ESP32KVStore.interface nvsModel).get .int32_t (some "count") d t0
      (startedStore, [])).1 = ⟨some "count", d⟩ ∧
    ((⟨some "count", 5⟩ : reference CStr .int32_t).toT (ESP32KVStore.interface nvsModel) t1
      (startedStore, [])).1 ≠ 5 := by
  have hg := esp32_empty_get .int32_t "count"
  have hread : ∀ x : Int,
      ((⟨some "count", x⟩ : reference CStr .int32_t).getValue (ESP32KVStore.interface nvsModel)
        t1 (startedStore, [])).1 = 0 := by
    intro x
    rw [getValue_eq]
    simp [hg]
  refine ⟨by decide, by decide, by decide, ?_, hread d, hread d, ?_, ?_⟩
  · simp [ESP32KVStore.get, startedStore, nvsModel, NvsEntries.find]
  · rw [hg]
  · have h5 := hread 5
    simp only [reference.toT, h5]
    decide

/-! ## Buffer safety of `ESP32KVStore::getBytes` -/

theorem nvsModel_blobWritesBounded : BlobWritesBounded nvsModel := by
  intro h key buf len n
  rcases key with _ | k
  · exact ⟨buf, rfl, rfl⟩
  · simp only [nvsModel]
    rcases hf : NvsEntries.find k n with _ | it
    · exact ⟨buf, rfl, rfl⟩
    · cases it with
      | int t v => exact ⟨buf, rfl, rfl⟩
      | str s => exact ⟨buf, rfl, rfl⟩
      | blob b =>
        simp only [nvsReadVar]
        by_cases hl : len < b.length
        · rw [if_pos hl]; exact ⟨buf, rfl, rfl⟩
        · rw [if_neg hl]
          refine ⟨b ++ buf.drop b.length, rfl, ?_⟩
          have hle : b.length ≤ len := by omega
          rw [List.drop_append_eq_append_drop, List.drop_eq_nil_of_le hle, List.nil_append,
            List.drop_drop]
          congr 1
          omega

theorem drop_of_drop_eq {α : Type} (a b : List α) (m n : Nat) (hmn : m ≤ n)
    (h : a.drop m = b.drop m) : a.drop n = b.drop n := by
  have e : n = m + (n - m) := by omega
  rw [e, ← List.drop_drop, ← List.drop_drop, h]

/-- C11 as stated fails: with the 2-byte blob `{1, 2}` stored at "k", the stored
length exceeds `maxLen = 0`, yet `getBytes("k", buf, 0)` returns 2; it also
returns 2 for a null buffer with `maxLen = 1`. -/
theorem C11_getBytes_returns_length_counterexample :
    (ESP32KVStore.getBytesLength nvsModel startedStore (some "k")
        [("k", NvsItem.blob [1, 2])]).1 = 2 ∧
    (ESP32KVStore.getBytes nvsModel startedStore (some "k") (some []) 0
        [("k", NvsItem.blob [1, 2])]).1.1 = 2 ∧
    (ESP32KVStore.getBytes nvsModel startedStore (some "k") none 1
        [("k", NvsItem.blob [1, 2])]).1.1 = 2 := by
  decide

/-- C11, amended. Buffer safety of `ESP32KVStore::getBytes`: with a non-null
buffer and a non-zero `maxLen`, `getBytes` returns 0 and leaves the buffer as it
was whenever the stored blob length (what `getBytesLength` reports) exceeds
`maxLen`; with a null buffer or `maxLen = 0` it returns the stored length and
writes nothing; and in every case, on an NVS that writes at most `*length`
bytes, the buffer is left unchanged beyond its first `maxLen` bytes. -/
theorem C11_getBytes_buffer_safety {N : Type} (nvs : Nvs N) (hB : BlobWritesBounded nvs)
    (self : ESP32KVStore) (key : CStr) (buf : List Nat) (maxLen : Nat) (n : N) :
    (ESP32KVStore.getBytes nvs self key none maxLen n).1
        = (res_t_of_size_t (ESP32KVStore.getBytesLength nvs self key n).1, none) ∧
    (ESP32KVStore.getBytes nvs self key (some buf) 0 n).1
        = (res_t_of_size_t (ESP32KVStore.getBytesLength nvs self key n).1, some buf) ∧
    (0 < maxLen → maxLen < (ESP32KVStore.getBytesLength nvs self key n).1 →
      (ESP32KVStore.getBytes nvs self key (some buf) maxLen n).1 = (0, some buf)) ∧
    ∃ out : List Nat, (ESP32KVStore.getBytes nvs self key (some buf) maxLen n).1.2 = some out ∧
      out.drop maxLen = buf.drop maxLen := by
  refine ⟨?_, ?_, ?_, ?_⟩
  · simp [ESP32KVStore.getBytes]
  · simp [ESP32KVStore.getBytes]
  · intro h0 hlt
    have h1 : (ESP32KVStore.getBytesLength nvs self key n).1 ≠ 0 := by omega
    have h2 : maxLen ≠ 0 := by omega
    simp [ESP32KVStore.getBytes, h1, h2, hlt]
  · unfold ESP32KVStore.getBytes
    by_cases hg : ((ESP32KVStore.getBytesLength nvs self key n).1 = 0
        || (some buf : Buf).isNone || maxLen = 0) = true
    · rw [if_pos hg]
      exact ⟨buf, rfl, rfl⟩
    · rw [if_neg hg]
      by_cases hl : (ESP32KVStore.getBytesLength nvs self key n).1 > maxLen
      · rw [if_pos hl]
        exact ⟨buf, rfl, rfl⟩
      · rw [if_neg hl]
        obtain ⟨out, ho, hd⟩ := hB self._handle key buf
          (ESP32KVStore.getBytesLength nvs self key n).1
          (ESP32KVStore.getBytesLength nvs self key n).2
        refine ⟨out, ?_, drop_of_drop_eq out buf _ maxLen (by omega) hd⟩
        simp only []
        split_ifs <;> exact ho

/-- C11 amended, on the reference NVS: a 2-byte blob read into a 4-byte
buffer with `maxLen = 3` leaves the fourth byte alone; with `maxLen = 1` nothing
is written and 0 is returned. -/
theorem C11_getBytes_buffer_safety_witness :
    (ESP32KVStore.getBytes nvsModel startedStore (some "k") (some [9, 9, 9, 9]) 1
        [("k", NvsItem.blob [1, 2])]).1 = (0, some [9, 9, 9, 9]) ∧
    ∃ out : List Nat,
      (ESP32KVStore.getBytes nvsModel startedStore (some "k") (some [9, 9, 9, 9]) 3
        [("k", NvsItem.blob [1, 2])]).1.2 = some out ∧
      out.drop 3 = [9] :=
  ⟨(C11_getBytes_buffer_safety nvsModel nvsModel_blobWritesBounded startedStore (some "k")
      [9, 9, 9, 9] 1 [("k", NvsItem.blob [1, 2])]).2.2.1 (by decide) (by decide),
    (C11_getBytes_buffer_safety nvsModel nvsModel_blobWritesBounded startedStore (some "k")
      [9, 9, 9, 9] 3 [("k", NvsItem.blob [1, 2])]).2.2.2⟩

/-! ## Read-only stores, stores that are not started, and the lifecycle -/

/-- A successful `begin(name, readOnly, partition_label)` leaves the store
started, with the read-only flag it was given. -/
theorem begin3_success {N : Type} (nvs : Nvs N) (self : ESP32KVStore) (name label : CStr)
    (ro : Bool) (n : N) (hb : (ESP32KVStore.begin3 nvs self name ro label n).1 = true) :
    (ESP32KVStore.begin3 nvs self name ro label n).2.1._started = true ∧
    (ESP32KVStore.begin3 nvs self name ro label n).2.1._readOnly = ro := by
  unfold ESP32KVStore.begin3 at hb ⊢
  by_cases hs : self._started = true
  · simp [hs] at hb
  · by_cases hl : label.isSome = true
    · by_cases hi : (nvs.nvs_flash_init_partition label n).1 = 0
      · by_cases ho : (nvs.nvs_open_from_partition label name ro
            (nvs.nvs_flash_init_partition label n).2).1.1 = 0
        · simp [hs, hl, hi, ho]
        · simp [hs, hl, hi, ho] at hb
      · simp [hs, hl, hi] at hb
    · by_cases ho : (nvs.nvs_open name ro n).1.1 = 0
      · simp [hs, hl, ho]
      · simp [hs, hl, ho] at hb

/-- On a read-only store every mutating member returns 0 or false and hands
the NVS state back as it was. -/
theorem readOnly_mutators {N : Type} (nvs : Nvs N) (self : ESP32KVStore)
    (hr : self._readOnly = true) (T : ScalarType) (key : CStr) (v : Int) (value : Buf)
    (len : Nat) (str : CStr) (astr : String) (n : N) :
    ESP32KVStore.put nvs self T key v n = (0, n) ∧
    ESP32KVStore.putBytes nvs self key value len n = (0, n) ∧
    ESP32KVStore.putString nvs self key str n = (0, n) ∧
    ESP32KVStore.putStringArduino nvs self key astr n = (0, n) ∧
    ESP32KVStore.remove nvs self key n = (0, n) ∧
    ESP32KVStore.clear nvs self n = (false, n) := by
  simp [ESP32KVStore.put, ESP32KVStore.putBytes, ESP32KVStore.putString,
    ESP32KVStore.putStringArduino, ESP32KVStore.remove, ESP32KVStore.clear, hr]

/-- C12. Read-only enforcement: after `begin(name, readOnly = true)` has
succeeded the store is started and read-only, and from then on each of `put<T>`
(all eight integer types), `putBytes`, both `putString` overloads, `remove` and
`clear` returns 0 or false, in whatever state the NVS is, leaving the NVS state
and the journal of NVS calls as they were: no NVS function is called, so every
entry keeps its value. -/
theorem C12_read_only_enforced {N : Type} (nvs : Nvs N) (self : ESP32KVStore)
    (name label : CStr) (n : N) (log0 : List NvsCall)
    (hb : (ESP32KVStore.begin3 nvs.traced self name true label (n, log0)).1 = true) :
    (ESP32KVStore.begin3 nvs.traced self name true label (n, log0)).2.1._started = true ∧
    (ESP32KVStore.begin3 nvs.traced self name true label (n, log0)).2.1._readOnly = true ∧
    ∀ (T : ScalarType) (key : CStr) (v : Int) (value : Buf) (len : Nat) (str : CStr)
      (astr : String) (m : N) (log : List NvsCall),
      ESP32KVStore.put nvs.traced
          (ESP32KVStore.begin3 nvs.traced self name true label (n, log0)).2.1 T key v (m, log)
        = (0, (m, log)) ∧
      ESP32KVStore.putBytes nvs.traced
          (ESP32KVStore.begin3 nvs.traced self name true label (n, log0)).2.1 key value len
          (m, log) = (0, (m, log)) ∧
      ESP32KVStore.putString nvs.traced
          (ESP32KVStore.begin3 nvs.traced self name true label (n, log0)).2.1 key str (m, log)
        = (0, (m, log)) ∧
      ESP32KVStore.putStringArduino nvs.traced
          (ESP32KVStore.begin3 nvs.traced self name true label (n, log0)).2.1 key
          astr (m, log) = (0, (m, log)) ∧
      ESP32KVStore.remove nvs.traced
          (ESP32KVStore.begin3 nvs.traced self name true label (n, log0)).2.1 key (m, log)
        = (0, (m, log)) ∧
      ESP32KVStore.clear nvs.traced
          (ESP32KVStore.begin3 nvs.traced self name true label (n, log0)).2.1 (m, log)
        = (false, (m, log)) := by
  obtain ⟨hs, hr⟩ := begin3_success nvs.traced self name label true (n, log0) hb
  exact ⟨hs, hr, fun T key v value len str astr m log =>
    readOnly_mutators nvs.traced _ hr T key v value len str astr (m, log)⟩

/-- C12, on the reference NVS holding an entry: after a read-only `begin`,
`put<int32_t>("count", 7)` returns 0 and the entry and the journal stay. -/
theorem C12_read_only_enforced_witness :
    ESP32KVStore.put nvsModel.traced
        (ESP32KVStore.begin3 nvsModel.traced
          { name := DEFAULT_KVSTORE_NAME, _handle := 0, _started := false, _readOnly := false }
          (some "arduino") true none ([("count", NvsItem.int .int32_t 42)], [])).2.1
        .int32_t (some "count") 7
        ([("count", NvsItem.int .int32_t 42)], [NvsCall.open_ (some "arduino") true])
      = (0, ([("count", NvsItem.int .int32_t 42)], [NvsCall.open_ (some "arduino") true])) :=
  ((C12_read_only_enforced nvsModel
      { name := DEFAULT_KVSTORE_NAME, _handle := 0, _started := false, _readOnly := false }
      (some "arduino") none [("count", NvsItem.int .int32_t 42)] [] (by decide)).2.2
    .int32_t (some "count") 7 none 0 none "" [("count", NvsItem.int .int32_t 42)]
    [NvsCall.open_ (some "arduino") true]).1

/-- On a store that is not started every member fails and hands the NVS state
back as it was. -/
theorem notStarted_members {N : Type} (nvs : Nvs N) (self : ESP32KVStore)
    (hs : self._started = false) (T : ScalarType) (key : CStr) (v d : Int) (value buf : Buf)
    (len maxLen : Nat) (str : CStr) (astr : String) (n : N) :
    ESP32KVStore.clear nvs self n = (false, n) ∧
    ESP32KVStore.remove nvs self key n = (0, n) ∧
    ESP32KVStore.putBytes nvs self key value len n = (0, n) ∧
    ESP32KVStore.put nvs self T key v n = (0, n) ∧
    ESP32KVStore.putString nvs self key str n = (0, n) ∧
    ESP32KVStore.putStringArduino nvs self key astr n = (0, n) ∧
    ESP32KVStore.getBytes nvs self key buf maxLen n = ((0, buf), n) ∧
    ESP32KVStore.getBytesLength nvs self key n = (0, n) ∧
    ESP32KVStore.exists_ nvs self key n = (false, n) ∧
    ESP32KVStore.getType nvs self key n = (.PT_INVALID, n) ∧
    ESP32KVStore.get nvs self T key d n = (⟨key, d⟩, n) := by
  have hl : ESP32KVStore.getBytesLength nvs self key n = (0, n) := by
    simp [ESP32KVStore.getBytesLength, hs]
  have ht : ESP32KVStore.getType nvs self key n = (.PT_INVALID, n) := by
    unfold ESP32KVStore.getType
    rw [if_pos (by simp [hs])]
  refine ⟨?_, ?_, ?_, ?_, ?_, ?_, ?_, hl, ?_, ht, ?_⟩
  · simp [ESP32KVStore.clear, hs]
  · simp [ESP32KVStore.remove, hs]
  · simp [ESP32KVStore.putBytes, hs]
  · simp [ESP32KVStore.put, hs]
  · simp [ESP32KVStore.putString, hs]
  · simp [ESP32KVStore.putStringArduino, ESP32KVStore.putString, hs]
  · simp [ESP32KVStore.getBytes, hl, res_t_of_size_t]
  · simp [ESP32KVStore.exists_, ht]
  · simp [ESP32KVStore.get, hs]

/-- After `end()` the store's `_started` flag is false, whatever it was. -/
theorem end_not_started {N : Type} (nvs : Nvs N) (self : ESP32KVStore) (n : N) :
    (ESP32KVStore.end_ nvs self n).2.1._started = false := by
  unfold ESP32KVStore.end_
  cases h : self._started <;> simp [h]

/-- C14. A store that was constructed and never begun is guarded only by the
value its uninitialised `_started` member happens to hold.  The store `end()`
leaves, and a constructed store whose `_started` holds false, fail without any
NVS call.  A constructed store whose `_started` holds true and whose
`_readOnly` holds false does not: on the reference NVS with `count = 42`, before
any `begin`, `clear` returns true, journals `nvs_erase_all` and `nvs_commit` on
the indeterminate handle and empties the NVS; `put<int32_t>("k", 1)` returns 4
and writes the entry; `exists("count")` is true; `get<int32_t>("count", 5)` is
seeded with 42, not 5; `end()` returns true and closes the handle; and `begin()`
returns false. -/
theorem C14_unbegun_store_reaches_nvs {N : Type} (nvs : Nvs N) (self : ESP32KVStore)
    (m : N) (h0 : Nat) (s0 r0 : Bool) :
    (ESP32KVStore.ctor h0 s0 r0)._started = s0 ∧
    failsWithoutNvsCall nvs (ESP32KVStore.end_ nvs self m).2.1 ∧
    failsWithoutNvsCall nvs (ESP32KVStore.ctor h0 false r0) ∧
    ESP32KVStore.clear nvsModel.traced (ESP32KVStore.ctor 7 true false)
        ([("count", NvsItem.int .int32_t 42)], [])
      = (true, ([], [NvsCall.erase_all 7, NvsCall.commit 7])) ∧
    ESP32KVStore.put nvsModel.traced (ESP32KVStore.ctor 7 true false) .int32_t (some "k") 1
        ([("count", NvsItem.int .int32_t 42)], [])
      = (4, ([("k", NvsItem.int .int32_t 1), ("count", NvsItem.int .int32_t 42)],
          [NvsCall.set .int32_t 7 (some "k") 1, NvsCall.commit 7])) ∧
    (ESP32KVStore.exists_ nvsModel (ESP32KVStore.ctor 7 true false) (some "count")
        [("count", NvsItem.int .int32_t 42)]).1 = true ∧
    ESP32KVStore.get nvsModel.traced (ESP32KVStore.ctor 7 true false) .int32_t (some "count") 5
        ([("count", NvsItem.int .int32_t 42)], [])
      = (⟨some "count", 42⟩,
          ([("count", NvsItem.int .int32_t 42)], [NvsCall.get .int32_t 7 (some "count")])) ∧
    ESP32KVStore.end_ nvsModel.traced (ESP32KVStore.ctor 7 true false)
        ([("count", NvsItem.int .int32_t 42)], [])
      = (true, ESP32KVStore.ctor 7 false false,
          ([("count", NvsItem.int .int32_t 42)], [NvsCall.close 7])) ∧
    ESP32KVStore.begin_ nvsModel.traced (ESP32KVStore.ctor 7 true false)
        ([("count", NvsItem.int .int32_t 42)], [])
      = (false, ESP32KVStore.ctor 7 true false, ([("count", NvsItem.int .int32_t 42)], [])) := by
  refine ⟨rfl, ?_, ?_, by decide, by decide, by decide, by decide, by decide, by decide⟩
  · intro T key v d value buf len maxLen str astr n log
    exact notStarted_members nvs.traced _ (end_not_started nvs self m) T key v d value buf
      len maxLen str astr (n, log)
  · intro T key v d value buf len maxLen str astr n log
    exact notStarted_members nvs.traced _ rfl T key v d value buf len maxLen str astr (n, log)

/-- C13. Lifecycle of `ESP32KVStore`: `begin` on a started store returns false
and leaves the object (started flag, read-only flag, handle) and the NVS as they
were; `end` on a started store returns true, closes the handle and leaves the
store not started; on a store that is not started `end` returns false and
changes nothing; and after `end`, a `begin` whose `nvs_open` succeeds returns
true and leaves the store started again. -/
theorem C13_lifecycle {N : Type} (nvs : Nvs N) (self : ESP32KVStore)
    (hs : self._started = true) (name label : CStr) (ro : Bool) (n m : N)
    (hopen : (nvs.nvs_open name ro m).1.1 = ESP_OK) :
    ESP32KVStore.begin3 nvs self name ro label n = (false, self, n) ∧
    ESP32KVStore.begin_ nvs self n = (false, self, n) ∧
    ESP32KVStore.end_ nvs self n
      = (true, { self with _started := false }, nvs.nvs_close self._handle n) ∧
    ESP32KVStore.end_ nvs (ESP32KVStore.end_ nvs self n).2.1 m
      = (false, (ESP32KVStore.end_ nvs self n).2.1, m) ∧
    (ESP32KVStore.begin3 nvs (ESP32KVStore.end_ nvs self n).2.1 name ro none m).1 = true ∧
    (ESP32KVStore.begin3 nvs (ESP32KVStore.end_ nvs self n).2.1 name ro none m).2.1._started
      = true := by
  have he : ESP32KVStore.end_ nvs self n
      = (true, { self with _started := false }, nvs.nvs_close self._handle n) := by
    simp [ESP32KVStore.end_, hs]
  have hopen0 : (nvs.nvs_open name ro m).1.1 = 0 := hopen
  refine ⟨?_, ?_, he, ?_, ?_, ?_⟩
  · simp [ESP32KVStore.begin3, hs]
  · simp [ESP32KVStore.begin_, ESP32KVStore.begin3, hs]
  · rw [he]; simp [ESP32KVStore.end_]
  · rw [he]; simp [ESP32KVStore.begin3, hopen0]
  · rw [he]; simp [ESP32KVStore.begin3, hopen0]

/-- C13, on the reference NVS: the started store is ended and begun again. -/
theorem C13_lifecycle_witness :
    ESP32KVStore.begin3 nvsModel startedStore (some "arduino") true none []
      = (false, startedStore, []) ∧
    (ESP32KVStore.begin3 nvsModel (ESP32KVStore.end_ nvsModel startedStore []).2.1
      (some "arduino") true none []).1 = true :=
  ⟨(C13_lifecycle nvsModel startedStore rfl (some "arduino") none true [] [] rfl).1,
    (C13_lifecycle nvsModel startedStore rfl (some "arduino") none true [] [] rfl).2.2.2.2.1⟩

theorem putSuccess_eq_sizeof (T : ScalarType) : ESP32KVStore.putSuccess T = (sizeof T : Int) := by
  cases T <;> rfl

/-- C15. ESP32 typed put signalling: each of the eight `put<T>` specialisations
returns `sizeof(T)` (1, 1, 2, 2, 4, 4, 8, 8) exactly when the store is started,
the key is non-null, the store is not read-only, the typed NVS set succeeds and
the commit that follows it succeeds, and returns 0 in every other case; the
journal shows the commit issued right after a successful set, before the
return.  A successful `put<int32_t>("count", 42)` returns 4, as does the generic
byte path. -/
theorem C15_typed_put_signalling {N : Type} (nvs : Nvs N) (self : ESP32KVStore)
    (T : ScalarType) (key : CStr) (v : Int) (n : N) (log : List NvsCall) :
    (ESP32KVStore.put nvs self T key v n).1
      = (if self._started = true ∧ key ≠ none ∧ self._readOnly = false ∧
            (nvs.nvs_set T self._handle key v n).1 = ESP_OK ∧
            (nvs.nvs_commit self._handle (nvs.nvs_set T self._handle key v n).2).1 = ESP_OK
          then (sizeof T : Int) else 0) ∧
    (sizeof T : Int) ≠ 0 ∧
    [sizeof .int8_t, sizeof .uint8_t, sizeof .int16_t, sizeof .uint16_t, sizeof .int32_t,
      sizeof .uint32_t, sizeof .int64_t, sizeof .uint64_t] = [1, 1, 2, 2, 4, 4, 8, 8] ∧
    (ESP32KVStore.put nvs.traced self T key v (n, log)).2.2
      = (if self._started = true ∧ key ≠ none ∧ self._readOnly = false then
          (if (nvs.nvs_set T self._handle key v n).1 = ESP_OK
            then log ++ [NvsCall.set T self._handle key v, NvsCall.commit self._handle]
            else log ++ [NvsCall.set T self._handle key v])
          else log) ∧
    (ESP32KVStore.put nvsModel startedStore .int32_t (some "count") 42 []).1 = 4 ∧
    ((ESP32KVStore.interface nvsModel).put .int32_t (some "count") 42 (startedStore, [])).1
      = 4 := by
  have hsz : (sizeof T : Int) ≠ 0 := by cases T <;> decide
  refine ⟨?_, hsz, rfl, ?_, by decide, by decide⟩
  · unfold ESP32KVStore.put
    rw [putSuccess_eq_sizeof]
    by_cases hs : self._started = true
    · rcases key with _ | k
      · simp [hs]
      · by_cases hr : self._readOnly = true
        · simp [hs, hr]
        · have hr2 : self._readOnly = false := by simpa using hr
          by_cases he : (nvs.nvs_set T self._handle (some k) v n).1 = 0
          · by_cases hc : (nvs.nvs_commit self._handle
                (nvs.nvs_set T self._handle (some k) v n).2).1 = 0
            · simp [hs, hr2, he, hc, ESP_OK]
            · simp [hs, hr2, he, hc, ESP_OK]
          · simp [hs, hr2, he, ESP_OK]
    · simp [hs]
  · unfold ESP32KVStore.put
    by_cases hs : self._started = true
    · rcases key with _ | k
      · simp [hs]
      · by_cases hr : self._readOnly = true
        · simp [hs, hr]
        · have hr2 : self._readOnly = false := by simpa using hr
          by_cases he : (nvs.nvs_set T self._handle (some k) v n).1 = 0
          · by_cases hc : (nvs.nvs_commit self._handle
                (nvs.nvs_set T self._handle (some k) v n).2).1 = 0
            · simp [hs, hr2, he, hc, ESP_OK, Nvs.traced]
            · simp [hs, hr2, he, hc, ESP_OK, Nvs.traced]
          · simp [hs, hr2, he, ESP_OK, Nvs.traced]
    · simp [hs]

/-! ## The Portenta store before `begin` -/

/-- C16 as stated fails: on a `PortentaC33KVStore` that was never begun
(`kvstore` null), `putBytes("k", {1}, 1)` returns -1, not 0. -/
theorem C16_putBytes_not_zero_counterexample :
    (PortentaC33KVStore.putBytes mbedModel { kvstore := none, bd := none } (some "k")
        (some [1]) 1 []).1 = -1 ∧
    (PortentaC33KVStore.putBytes mbedModel { kvstore := none, bd := none } (some "k")
        (some [1]) 1 []).1 ≠ 0 := by
  decide

/-- C16, amended. On a `PortentaC33KVStore` whose `kvstore` pointer is null,
`putBytes` returns -1 (as does `remove`), `getBytes` returns 0 with the buffer
untouched, `getBytesLength` returns 0, `exists` returns false and `clear`
returns false; each hands back the state of the underlying store and the journal
of calls into it as they were. -/
theorem C16_not_begun_portenta {M : Type} (kv : MbedKVStore M) (self : PortentaC33KVStore)
    (hk : self.kvstore = none) (key : CStr) (buf : Buf) (len info0 : Nat) (m : M)
    (log : List MbedCall) :
    PortentaC33KVStore.putBytes kv.traced self key buf len (m, log) = (-1, (m, log)) ∧
    PortentaC33KVStore.remove kv.traced self key (m, log) = (-1, (m, log)) ∧
    PortentaC33KVStore.getBytes kv.traced self key buf len (m, log) = ((0, buf), (m, log)) ∧
    PortentaC33KVStore.getBytesLength kv.traced self key info0 (m, log) = (0, (m, log)) ∧
    PortentaC33KVStore.exists_ kv.traced self key info0 (m, log) = (false, (m, log)) ∧
    PortentaC33KVStore.clear kv.traced self (m, log) = (false, (m, log)) := by
  simp [PortentaC33KVStore.putBytes, PortentaC33KVStore.remove, PortentaC33KVStore.getBytes,
    PortentaC33KVStore.getBytesLength, PortentaC33KVStore.exists_, PortentaC33KVStore.clear, hk]

/-- C16 amended, on the reference store holding a key: `exists("k")` is false
on the store object the constructor leaves, and nothing is journalled. -/
theorem C16_not_begun_portenta_witness :
    PortentaC33KVStore.exists_ mbedModel.traced { kvstore := none, bd := none } (some "k") 0
        ([("k", [1, 2])], []) = (false, ([("k", [1, 2])], [])) :=
  (C16_not_begun_portenta mbedModel { kvstore := none, bd := none } rfl (some "k") none 0 0
    [("k", [1, 2])] []).2.2.2.2.1

/-! ## Keys, proxy construction and proxy delegation in the generic layer -/

/-- C17 as stated fails: with a null key, and with an empty key, the generic
`put<int32_t>` calls `putBytes` and the generic `get<int32_t>` calls `exists`
on the backend (here the ESP32 store, journalled). -/
theorem C17_null_key_reaches_backend_counterexample :
    ((ESP32KVStore.interface nvsModel).traced.put .int32_t none 42
        ((startedStore, []), [])).2.2 = [Call.putBytes none (some [42, 0, 0, 0]) 4] ∧
    ((ESP32KVStore.interface nvsModel).traced.get .int32_t none 7 [0, 0, 0, 0]
        ((startedStore, []), [])).2.2 = [Call.exists_ none] ∧
    ((ESP32KVStore.interface nvsModel).traced.put .int32_t (some "") 42
        ((startedStore, []), [])).2.2 = [Call.putBytes (some "") (some [42, 0, 0, 0]) 4] ∧
    ((ESP32KVStore.interface nvsModel).traced.get .int32_t (some "") 7 [0, 0, 0, 0]
        ((startedStore, []), [])).2.2 = [Call.exists_ (some "")] := by
  decide

/-- C17, amended. The generic layer does not look at the key: for every key,
null and empty included, `put<T>` makes its one `putBytes` call and returns that
call's result, and `get<T>` calls `exists`, then `getBytes` when `exists` was
true, seeding the proxy with `d` exactly when `exists` was false.  Rejecting a
null key is the backend's business: the primitives of `ESP32KVStore` return 0
and false for a null key without an NVS call, so that there `put<T>` returns 0
and `get<T>` seeds `d`. -/
theorem C17_keys_not_validated {S K N : Type} (B : KVStoreInterface S K) (nvs : Nvs N)
    (T : ScalarType) (k : K) (v d : Int) (t0 : List Nat) (s : S) (log : List (Call K))
    (self : ESP32KVStore) (n : N) (nlog : List NvsCall) :
    B.traced.put T k v (s, log)
      = ((B.putBytes k (some (rawBytes T v)) (sizeof T) s).1,
          ((B.putBytes k (some (rawBytes T v)) (sizeof T) s).2,
            log ++ [Call.putBytes k (some (rawBytes T v)) (sizeof T)])) ∧
    (B.traced.get T k d t0 (s, log)).2.2
      = (if (B.exists_ k s).1 then
          log ++ [Call.exists_ k, Call.getBytes k (some t0) (sizeof T)]
        else log ++ [Call.exists_ k]) ∧
    (B.get T k d t0 s).1
      = (if (B.exists_ k s).1 then
          ⟨k, fromRaw T ((B.getBytes k (some t0) (sizeof T) (B.exists_ k s).2).1.2.getD t0)⟩
        else ⟨k, d⟩) ∧
    (ESP32KVStore.interface nvs.traced).put T none v (self, (n, nlog))
      = (0, (self, (n, nlog))) ∧
    (ESP32KVStore.interface nvs.traced).get T none d t0 (self, (n, nlog))
      = (⟨none, d⟩, (self, (n, nlog))) := by
  have hex : ESP32KVStore.exists_ nvs.traced self none (n, nlog) = (false, (n, nlog)) := by
    have ht : ESP32KVStore.getType nvs.traced self none (n, nlog)
        = (.PT_INVALID, (n, nlog)) := by
      unfold ESP32KVStore.getType
      rw [if_pos (by simp)]
    simp [ESP32KVStore.exists_, ht]
  refine ⟨rfl, ?_, ?_, ?_, ?_⟩
  · by_cases he : (B.exists_ k s).1 = true
    · simp [KVStoreInterface.get, KVStoreInterface.traced, he]
    · simp [KVStoreInterface.get, KVStoreInterface.traced, he]
  · by_cases he : (B.exists_ k s).1 = true
    · simp [KVStoreInterface.get, he]
    · simp [KVStoreInterface.get, he]
  · simp [KVStoreInterface.put, ESP32KVStore.interface, ESP32KVStore.putBytes]
  · simp [KVStoreInterface.get, ESP32KVStore.interface, hex]

/-- C18. Proxy construction is pure: constructing `reference(k, v, B)` hands
back the backend state as it was, with nothing journalled on a traced backend,
and the new proxy has key `k` and cached value `v`. -/
theorem C18_constructor_pure {S K : Type} (T : ScalarType) (B : KVStoreInterface S K)
    (k : K) (v : Int) (s : S) (log : List (Call K)) :
    (reference.ctor T B k v s).2 = s ∧
    (reference.ctor T B.traced k v (s, log)).2 = (s, log) ∧
    (reference.ctor T B k v s).1.key = k ∧
    (reference.ctor T B k v s).1.value = v :=
  ⟨rfl, rfl, rfl, rfl⟩

/-- C19. Proxy `remove` and `exists` are delegations: `r.remove()` leaves the
store in the state of the one call `B.remove(key)`, and `r.exists()` is the one
call `B.exists(key)`, with the same result for every cached value.  The proxy
is not touched by either: a `save()` after `remove()` still writes the value
that was cached before. -/
theorem C19_remove_exists_delegate {S K : Type} {T : ScalarType} (B : KVStoreInterface S K)
    (r : reference K T) (c : Int) (s : S) (log : List (Call K)) :
    r.remove B s = (B.remove r.key s).2 ∧
    r.remove B.traced (s, log) = ((B.remove r.key s).2, log ++ [Call.remove r.key]) ∧
    r.exists_ B s = B.exists_ r.key s ∧
    (⟨r.key, c⟩ : reference K T).exists_ B s = r.exists_ B s ∧
    r.exists_ B.traced (s, log)
      = ((B.exists_ r.key s).1, ((B.exists_ r.key s).2, log ++ [Call.exists_ r.key])) ∧
    (r.save B.traced (r.remove B.traced (s, log))).2
      = log ++ [Call.remove r.key,
          Call.putBytes r.key (some (rawBytes T r.value)) (sizeof T)] := by
  refine ⟨rfl, rfl, rfl, rfl, rfl, ?_⟩
  simp [reference.save, reference.remove, KVStoreInterface.put, KVStoreInterface.traced]

/-! ## The default string members on a length-faithful backend -/

theorem res_t_of_size_t_small (n : Nat) (h : n < 2 ^ 31) : res_t_of_size_t n = n := by
  unfold res_t_of_size_t
  norm_num at h ⊢
  omega

theorem nvsModel_failedReadKeeps : FailedReadKeeps nvsModel := by
  intro t h k n hne
  rcases k with _ | key
  · rfl
  · simp only [nvsModel] at hne ⊢
    rcases hf : NvsEntries.find key n with _ | it
    · rfl
    · cases it with
      | int t1 v =>
        by_cases ht : t1 = t
        · simp [hf, ht, ESP_OK] at hne
        · simp [ht]
      | str s => rfl
      | blob b => rfl

/-- C24. ESP32 typed get falls back to the default: on an NVS whose failing
typed reads leave their output alone, for every integer type `T`,
`ESP32KVStore::get<T>(k, d)` yields a proxy for `k` seeded with what the typed
NVS read for `T` stored in `value` when the store is started, `k` is non-null
and that read succeeds, and seeded with exactly `d` in every other case: store
not started, null key, or failing read, as is the read of an entry tagged with
another type. -/
theorem C24_typed_get_default {N : Type} (nvs : Nvs N)
    (HasType : N → Nat → CStr → ScalarType → Prop) (hN : TypedReads nvs HasType)
    (hF : FailedReadKeeps nvs) (self : ESP32KVStore) (T : ScalarType) (key : CStr) (d : Int)
    (n : N) :
    (ESP32KVStore.get nvs self T key d n).1
      = ⟨key,
          if self._started = true ∧ key ≠ none ∧
              (nvs.nvs_get T self._handle key n).1.1 = ESP_OK
          then (nvs.nvs_get T self._handle key n).1.2.getD d else d⟩ ∧
    (∀ T1 : ScalarType, HasType n self._handle key T1 → T1 ≠ T →
      (ESP32KVStore.get nvs self T key d n).1 = ⟨key, d⟩) := by
  have hmain : (ESP32KVStore.get nvs self T key d n).1
      = ⟨key,
          if self._started = true ∧ key ≠ none ∧
              (nvs.nvs_get T self._handle key n).1.1 = ESP_OK
          then (nvs.nvs_get T self._handle key n).1.2.getD d else d⟩ := by
    unfold ESP32KVStore.get
    by_cases hs : self._started = true
    · rcases key with _ | k
      · simp [hs]
      · by_cases hok : (nvs.nvs_get T self._handle (some k) n).1.1 = ESP_OK
        · simp [hs, hok]
        · simp [hs, hok, hF T self._handle (some k) n hok]
    · simp [hs]
  refine ⟨hmain, ?_⟩
  intro T1 h1 hne
  have hfail : ¬ (nvs.nvs_get T self._handle key n).1.1 = ESP_OK := fun hok =>
    hne ((hN.get_ok_iff T self._handle n key T1 h1).mp hok).symm
  rw [hmain]
  simp [hfail]

/-- C24, on the reference NVS: an entry written as `int8_t` is read as
`int32_t` with default 5, and a present `int32_t` entry is read. -/
theorem C24_typed_get_default_witness :
    (ESP32KVStore.get nvsModel startedStore .int32_t (some "boot") 5
        [("boot", NvsItem.int .int8_t 1)]).1 = ⟨some "boot", 5⟩ ∧
    (ESP32KVStore.get nvsModel startedStore .int32_t (some "count") 5
        [("count", NvsItem.int .int32_t 42)]).1 = ⟨some "count", 42⟩ :=
  ⟨(C24_typed_get_default nvsModel modelHasType nvsModel_typedReads nvsModel_failedReadKeeps
      startedStore .int32_t (some "boot") 5 [("boot", NvsItem.int .int8_t 1)]).2 .int8_t
      ⟨"boot", 1, rfl, by decide⟩ (by decide),
    by decide⟩

/-- C27. A proxy read reloads through the generic path: for the proxy that
`ESP32KVStore::get<T>(k, d)` returns, in whatever state the store is when the
proxy is read, every read (`getValue`, dereference, conversion) returns the seed
of the generic `KVStoreInterface::get<T>(k, 0)`.  On the reference NVS, after
`put<int32_t>("count", 42)` the override seeds the proxy with 42, while reading
it yields the indeterminate local of the generic `get` (9 when its bytes are
`{9, 0, 0, 0}`): neither 42 nor the default 5. -/
theorem C27_read_reloads_generic {N : Type} (nvs : Nvs N) (self : ESP32KVStore)
    (T : ScalarType) (key : CStr) (d : Int) (n : N) (t0 : List Nat) (st : ESP32KVStore × N) :
    ((ESP32KVStore.get nvs self T key d n).1.getValue (ESP32KVStore.interface nvs) t0 st).1
      = ((ESP32KVStore.interface nvs).get T key 0 t0 st).1.value ∧
    ((ESP32KVStore.get nvs self T key d n).1.deref (ESP32KVStore.interface nvs) t0 st).1
      = ((ESP32KVStore.interface nvs).get T key 0 t0 st).1.value ∧
    ((ESP32KVStore.get nvs self T key d n).1.toT (ESP32KVStore.interface nvs) t0 st).1
      = ((ESP32KVStore.interface nvs).get T key 0 t0 st).1.value ∧
    (ESP32KVStore.get nvsModel startedStore .int32_t (some "count") 5
        (ESP32KVStore.put nvsModel startedStore .int32_t (some "count") 42 []).2).1.value
      = 42 ∧
    ((ESP32KVStore.get nvsModel startedStore .int32_t (some "count") 5
        (ESP32KVStore.put nvsModel startedStore .int32_t (some "count") 42 []).2).1.toT
      (ESP32KVStore.interface nvsModel) [9, 0, 0, 0]
      (startedStore, (ESP32KVStore.put nvsModel startedStore .int32_t (some "count") 42 []).2)).1
      = 9 := by
  have hkey : (ESP32KVStore.get nvs self T key d n).1.key = key := by
    unfold ESP32KVStore.get
    split_ifs <;> rfl
  have hr : ((ESP32KVStore.get nvs self T key d n).1.getValue (ESP32KVStore.interface nvs)
      t0 st).1 = ((ESP32KVStore.interface nvs).get T key 0 t0 st).1.value := by
    rw [getValue_eq, hkey]
  exact ⟨hr, hr, hr, by decide, by decide⟩

/-- C28. Proxy-to-proxy assignment does not write: `a = b` leaves `a` with its
own key and the cached value of `b`; it takes no store and calls no member of
one, so the store is as it was: the next read of `a` reloads what the store
holds, exactly as a read of `a` before the assignment would. -/
theorem C28_proxy_assignment_no_write {S K : Type} {T : ScalarType} (B : KVStoreInterface S K)
    (a b : reference K T) (t0 : List Nat) (s : S) :
    a.assignRef b = ⟨a.key, b.value⟩ ∧
    (a.assignRef b).key = a.key ∧
    (a.assignRef b).value = b.value ∧
    (a.assignRef b).getValue B t0 s = a.getValue B t0 s :=
  ⟨rfl, rfl, rfl, rfl⟩

/-! ## `SAMDKVStore::getString` -/

/-- C30. For every driver, key, buffer and `maxLen`, `SAMDKVStore::getString`
returns 0, without a read, when `exists(k)` is false, and otherwise returns
`maxLen` itself, whatever `prefGet` returned and whatever it left in the
buffer. -/
theorem C30_samd_getString_returns_maxLen {W : Type} (wd : WiFiDrv W) (key : CStr)
    (value : Buf) (maxLen : Nat) (w : W) :
    (SAMDKVStore.getString wd key value maxLen w).1.1
      = (if (SAMDKVStore.exists_ wd key w).1 then maxLen else 0) ∧
    (SAMDKVStore.getString wd key value maxLen w).1.2
      = (if (SAMDKVStore.exists_ wd key w).1
          then (wd.prefGet key wd.PT_STR value maxLen (SAMDKVStore.exists_ wd key w).2).1.2
          else value) := by
  unfold SAMDKVStore.getString
  by_cases he : (SAMDKVStore.exists_ wd key w).1 = true
  · simp [he]
  · simp [he]

/-! ## Lifecycle of the Portenta store -/

/-- Neither `begin` nor `end` leaves a non-null `bd` behind when it was null
before. -/
theorem portenta_step_bd {M : Type} (kv : MbedKVStore M) (fac : MbedFactory M)
    (st : PortentaC33KVStore × M) (op : PortentaOp) (h : st.1.bd = none) :
    (PortentaC33KVStore.step kv fac st op).1.bd = none := by
  obtain ⟨⟨k, b⟩, m⟩ := st
  simp only at h
  subst h
  cases op with
  | begin2 r store =>
    cases k <;> cases store <;>
      simp [PortentaC33KVStore.step, PortentaC33KVStore.begin2]
  | end_ =>
    cases k <;> simp [PortentaC33KVStore.step, PortentaC33KVStore.end_]

theorem portenta_run_bd {M : Type} (kv : MbedKVStore M) (fac : MbedFactory M)
    (ops : List PortentaOp) (st : PortentaC33KVStore × M) (h : st.1.bd = none) :
    (PortentaC33KVStore.run kv fac st ops).1.bd = none := by
  induction ops generalizing st with
  | nil => exact h
  | cons op ops ih =>
    simp only [PortentaC33KVStore.run, List.foldl_cons]
    exact ih _ (portenta_step_bd kv fac st op h)

/-- C26. Lifecycle of `PortentaC33KVStore`: on a bound store (`kvstore`
non-null) `begin` returns false and changes nothing; a first `begin` binds the
store even when `init` fails, so that the `begin` after it returns false and
changes nothing; `end` returns false and changes nothing when nothing is bound;
`end` on a bound store leaves `kvstore` (and `bd`) null, and the `begin` that
follows binds again and returns the outcome of `init`; and after any sequence of
`begin` and `end` calls on a constructed store the `bd` pointer is null. -/
theorem C26_portenta_lifecycle {M : Type} (kv : MbedKVStore M) (fac : MbedFactory M)
    (self : PortentaC33KVStore) (p : Nat) (hk : self.kvstore = some p) (reformat : Bool)
    (store : Option Nat) (q : Nat) (m m1 : M) (ops : List PortentaOp) :
    PortentaC33KVStore.begin2 kv fac self reformat store m = (false, self, m) ∧
    PortentaC33KVStore.begin2 kv fac
        (PortentaC33KVStore.begin2 kv fac PortentaC33KVStore.ctor reformat store m).2.1
        reformat store m1
      = (false, (PortentaC33KVStore.begin2 kv fac PortentaC33KVStore.ctor reformat store m).2.1,
          m1) ∧
    (∀ t : PortentaC33KVStore, t.kvstore = none →
      PortentaC33KVStore.end_ kv fac t m = (false, t, m)) ∧
    (PortentaC33KVStore.end_ kv fac self m).2.1 = PortentaC33KVStore.ctor ∧
    PortentaC33KVStore.begin2 kv fac (PortentaC33KVStore.end_ kv fac self m).2.1 reformat
        (some q) m1
      = (decide ((kv.init q m1).1 = kv.KVSTORE_SUCCESS), { kvstore := some q, bd := none },
          (kv.init q m1).2) ∧
    (PortentaC33KVStore.run kv fac (PortentaC33KVStore.ctor, m) ops).1.bd = none := by
  obtain ⟨k, b⟩ := self
  simp only at hk
  subst hk
  refine ⟨?_, ?_, ?_, ?_, ?_, portenta_run_bd kv fac ops _ rfl⟩
  · simp [PortentaC33KVStore.begin2]
  · cases store <;> simp [PortentaC33KVStore.begin2, PortentaC33KVStore.ctor]
  · rintro ⟨tk, tb⟩ ht
    simp only at ht
    subst ht
    simp [PortentaC33KVStore.end_]
  · cases b <;> simp [PortentaC33KVStore.end_, PortentaC33KVStore.ctor]
  · cases b <;> simp [PortentaC33KVStore.end_, PortentaC33KVStore.begin2]

/-- C26, on the reference store: a store bound to object 2 refuses `begin`. -/
theorem C26_portenta_lifecycle_witness :
    PortentaC33KVStore.begin2 mbedModel mbedFactoryModel { kvstore := some 2, bd := none }
        false none [] = (false, { kvstore := some 2, bd := none }, []) :=
  (C26_portenta_lifecycle mbedModel mbedFactoryModel { kvstore := some 2, bd := none } 2 rfl
    false none 0 [] [] []).1

/-! ## The default Arduino `String` getter -/

theorem stringOfCBytes_set_zero (l : List Nat) : stringOfCBytes (l.set 0 0) = "" := by
  cases l with
  | nil => rfl
  | cons a l => simp [stringOfCBytes, List.set]

/-- For a key whose `getBytesLength` is 0 the default `String` getter returns
the empty string, whatever default it is given. -/
theorem getStringArduino_absent {S K : Type} (B : KVStoreInterface S K) (key : K)
    (defaultValue : String) (str0 : List Nat) (s : S) (h : (B.getBytesLength key s).1 = 0) :
    (B.getStringArduino key defaultValue str0 s).1 = "" := by
  simp only [KVStoreInterface.getStringArduino, h]
  exact stringOfCBytes_set_zero _

/-- C23. The default `String` getter, at its failing input: on a Portenta
store begun on an empty `mbed::KVStore`, `getBytesLength("missing")` is 0 and
`getString("missing", defaultValue)` returns the empty string for every
`defaultValue`, so not "dflt" when that is the default; a present key holding
"abc" is returned as "abc". -/
theorem C23_string_getter_ignores_default (defaultValue : String) (str0 : List Nat)
    (info0 : Nat) :
    PortentaC33KVStore.begin_ mbedModel mbedFactoryModel PortentaC33KVStore.ctor []
      = (true, { kvstore := some 2, bd := none }, []) ∧
    ((PortentaC33KVStore.interface mbedModel mbedFactoryModel info0).getBytesLength
      (some "missing") ({ kvstore := some 2, bd := none }, [])).1 = 0 ∧
    ((PortentaC33KVStore.interface mbedModel mbedFactoryModel info0).getStringArduino
      (some "missing") defaultValue str0 ({ kvstore := some 2, bd := none }, [])).1 = "" ∧
    ((PortentaC33KVStore.interface mbedModel mbedFactoryModel info0).getStringArduino
      (some "missing") "dflt" str0 ({ kvstore := some 2, bd := none }, [])).1 ≠ "dflt" ∧
    ((PortentaC33KVStore.interface mbedModel mbedFactoryModel 0).getStringArduino
      (some "name") "dflt" [7, 7, 7, 7]
      ({ kvstore := some 2, bd := none }, [("name", [97, 98, 99])])).1 = "abc" := by
  have hlen : ((PortentaC33KVStore.interface mbedModel mbedFactoryModel info0).getBytesLength
      (some "missing") ({ kvstore := some 2, bd := none }, [])).1 = 0 := by
    simp [PortentaC33KVStore.interface, PortentaC33KVStore.getBytesLength, mbedModel, mbedFind]
  refine ⟨by decide, hlen, getStringArduino_absent _ _ _ _ _ hlen, ?_, by decide⟩
  rw [getStringArduino_absent _ _ _ _ _ hlen]
  decide

/-! ## The UnoR4 store -/

/-- C22. The value field of the UnoR4 typed put, at its failing inputs: every
`put<T>` formats the value with `%hu`, so for the types of 8, 16 and 32 bits the
decimal value field of the command it sends denotes the value modulo `2^16`:
"65535" for `put<int8_t>(k, -1)`, "65534" for `put<int16_t>(k, -2)`, "4464" for
`put<int32_t>(k, 70000)` and "0" for `put<uint32_t>(k, 65536)`, not the value
itself. -/
theorem C22_put_value_field_truncated {Mo : Type} (md : Modem Mo) (ac : AtCommands)
    (T : ScalarType) (v va : Int) (mo : Mo) (log : List ModemCall) :
    (Unor4KVStore.put md.traced ac T (some "k") v va (mo, log)).2.2
      = log ++ [ModemCall.write (ac.PROMPT ac._PREF_PUT) []
          (ac.CMD_WRITE ac._PREF_PUT ++ "k" ++ "," ++ fmt_d (tagOf T).toNat ++ ","
            ++ Unor4KVStore.putValueField T v va ++ "\r\n")] ∧
    Unor4KVStore.putValueField .int8_t v va = toString (v % 65536).toNat ∧
    Unor4KVStore.putValueField .uint8_t v va = toString (v % 65536).toNat ∧
    Unor4KVStore.putValueField .int16_t v va = toString (v % 65536).toNat ∧
    Unor4KVStore.putValueField .uint16_t v va = toString (v % 65536).toNat ∧
    Unor4KVStore.putValueField .int32_t v va = toString (v % 65536).toNat ∧
    Unor4KVStore.putValueField .uint32_t v va = toString (v % 65536).toNat ∧
    Unor4KVStore.putValueField .int8_t (-1) 0 = "65535" ∧
    Unor4KVStore.putValueField .int16_t (-2) 0 = "65534" ∧
    Unor4KVStore.putValueField .int32_t 70000 0 = "4464" ∧
    Unor4KVStore.putValueField .uint32_t 65536 0 = "0" ∧
    Unor4KVStore.putCommand atExample .int32_t (some "k") 70000 0
      = "AT+PREFPUT=k,4,4464\r\n" := by
  refine ⟨?_, rfl, rfl, rfl, rfl, rfl, rfl, by decide, by decide, by decide, by decide,
    by decide⟩
  have hk : ((some "k" : CStr).isSome && decide (strlen (some "k") > 0)) = true := by decide
  unfold Unor4KVStore.put
  rw [if_pos hk]
  simp only [Modem.traced, Unor4KVStore.putCommand, Option.getD_some]
  split_ifs <;> rfl

/-- C25. UnoR4 `getBytes` never copies partially: with `len` the length that
`getBytesLength` reports and `maxLen` below `2^31`, `getBytes(k, buf, maxLen)`
returns `len` and leaves in `buf` the first `len` bytes of the modem's response
followed by the bytes of `buf` beyond them exactly when the key is non-null and
non-empty, `buf` is non-null, `0 < len <= maxLen`, the modem answers the read and
its response holds at least `len` bytes; in every other case it returns 0 and
hands `buf` back as it was. -/
theorem C25_unor4_getBytes_no_partial_copy {Mo : Type} (md : Modem Mo) (ac : AtCommands)
    (key : CStr) (buf : Buf) (maxLen : Nat) (mo : Mo) (hmax : maxLen < 2 ^ 31) :
    (Unor4KVStore.getBytes md ac key buf maxLen mo).1
      = (if key ≠ none ∧ 0 < strlen key ∧ buf ≠ none ∧
            0 < (Unor4KVStore.getBytesLength md ac key mo).1 ∧
            (Unor4KVStore.getBytesLength md ac key mo).1 ≤ maxLen ∧
            (md.write (ac.PROMPT ac._PREF_GET) [] (Unor4KVStore.getBytesCommand ac key)
              (md.read_using_size (md.avoid_trim_results
                (Unor4KVStore.getBytesLength md ac key mo).2))).1.1 = true ∧
            (Unor4KVStore.getBytesLength md ac key mo).1 ≤
              (md.write (ac.PROMPT ac._PREF_GET) [] (Unor4KVStore.getBytesCommand ac key)
                (md.read_using_size (md.avoid_trim_results
                  (Unor4KVStore.getBytesLength md ac key mo).2))).1.2.length
          then
            (((Unor4KVStore.getBytesLength md ac key mo).1 : Int),
              some ((md.write (ac.PROMPT ac._PREF_GET) [] (Unor4KVStore.getBytesCommand ac key)
                  (md.read_using_size (md.avoid_trim_results
                    (Unor4KVStore.getBytesLength md ac key mo).2))).1.2.take
                  (Unor4KVStore.getBytesLength md ac key mo).1
                ++ (buf.getD []).drop (Unor4KVStore.getBytesLength md ac key mo).1))
          else (0, buf)) := by
  simp only [Unor4KVStore.getBytes]
  generalize Unor4KVStore.getBytesLength md ac key mo = l
  generalize md.write (ac.PROMPT ac._PREF_GET) [] (Unor4KVStore.getBytesCommand ac key)
    (md.read_using_size (md.avoid_trim_results l.2)) = w
  rcases key with _ | k
  · simp
  · rcases buf with _ | b
    · simp
    · by_cases hk : 0 < strlen (some k)
      · by_cases hl : 0 < l.1
        · by_cases hw : w.1.1 = true
          · by_cases h1 : l.1 ≤ w.1.2.length
            · by_cases h2 : l.1 ≤ maxLen
              · have hsmall : res_t_of_size_t l.1 = l.1 :=
                  res_t_of_size_t_small l.1 (by omega)
                simp [hk, hl, hw, h1, h2, hsmall]
              · simp [hk, hl, hw, h1, h2]
            · simp [hk, hl, hw, h1]
          · simp [hk, hl, hw]
        · simp [hk, hl]
      · simp [hk]

/-- C25, with a modem that reports 3 bytes and then answers `{1, 2, 3}`. -/
theorem C25_unor4_getBytes_no_partial_copy_witness :
    (Unor4KVStore.getBytes scriptedModem atExample (some "k") (some [9, 9, 9, 9]) 4
        [(true, [51]), (true, [1, 2, 3])]).1 = (3, some [1, 2, 3, 9]) ∧
    (Unor4KVStore.getBytes scriptedModem atExample (some "k") (some [9, 9, 9, 9]) 2
        [(true, [51]), (true, [1, 2, 3])]).1 = (0, some [9, 9, 9, 9]) :=
  ⟨(C25_unor4_getBytes_no_partial_copy scriptedModem atExample (some "k") (some [9, 9, 9, 9]) 4
      [(true, [51]), (true, [1, 2, 3])] (by decide)).trans (by decide),
    (C25_unor4_getBytes_no_partial_copy scriptedModem atExample (some "k") (some [9, 9, 9, 9]) 2
      [(true, [51]), (true, [1, 2, 3])] (by decide)).trans (by decide)⟩

theorem size_t_res_t_roundtrip (n : Nat) (h : n < 2 ^ 32) :
    size_t_of_res_t (res_t_of_size_t n) = n := by
  unfold size_t_of_res_t res_t_of_size_t
  norm_num at h ⊢
  split_ifs <;> omega

/-- The `putString` of the UnoR4 store returns 0 or the length of the string
converted to `res_t` and back. -/
theorem unor4_putString_result {Mo : Type} (md : Modem Mo) (ac : AtCommands) (key value : CStr)
    (mo : Mo) :
    (Unor4KVStore.putString md ac key value mo).1 = 0 ∨
    (Unor4KVStore.putString md ac key value mo).1
      = size_t_of_res_t (res_t_of_size_t (strlen value)) := by
  simp only [Unor4KVStore.putString, Unor4KVStore.putCStr]
  split_ifs
  · right; rfl
  · left; rfl
  · left; rfl

/-- C21 as stated fails: with a modem that accepts the three bytes of "abc"
and afterwards answers the GET with exactly those three bytes,
`putString("k", "abc")` returns 3 and `getString("k", buf, 16)` returns 4. -/
theorem C21_getString_counts_terminator_counterexample :
    (Unor4KVStore.putString scriptedModem atExample (some "k") (some "abc")
        [(true, [97, 98, 99])]).1 = 3 ∧
    (Unor4KVStore.getString scriptedModem atExample (some "k")
        (some [0, 0, 0, 0, 0, 0, 0, 0, 0, 0, 0, 0, 0, 0, 0, 0]) 16 ""
        (Unor4KVStore.putString scriptedModem atExample (some "k") (some "abc")
          [(true, [97, 98, 99])]).2).1.1 = 4 := by
  decide

/-- C21, amended. On the UnoR4 store, for every non-empty string `s` (shorter
than `2^31`) and non-empty key, if `putString(k, s)` returned `n`, not 0, and
the modem afterwards answers the GET for `k` with exactly the bytes of `s`, then
`n` is `strlen(s)` and `getString(k, buf, maxLen)` with `maxLen >= n + 2` returns
`n + 1`: the bytes received and the terminator it appends. -/
theorem C21_unor4_string_round_trip {Mo : Type} (md : Modem Mo) (ac : AtCommands)
    (key str : String) (buf : List Nat) (maxLen n : Nat) (resText : String) (mo mo1 : Mo)
    (hkey : 0 < key.length) (hlen : str.length < 2 ^ 31)
    (hput : (Unor4KVStore.putString md ac (some key) (some str) mo).1 = n) (hn : n ≠ 0)
    (hget : (md.write (ac.PROMPT ac._PREF_GET) []
        (Unor4KVStore.getStringCommand ac (some key) resText) (md.read_using_size mo1)).1
      = (true, str.data.map Char.toNat))
    (hmax : n + 2 ≤ maxLen) (hsz : maxLen < 2 ^ 32) :
    n = str.length ∧
    (Unor4KVStore.getString md ac (some key) (some buf) maxLen resText mo1).1.1 = n + 1 := by
  have hn2 : n = str.length := by
    rcases unor4_putString_result md ac (some key) (some str) mo with h0 | h1
    · rw [h0] at hput; exact absurd hput.symm hn
    · rw [h1, size_t_res_t_roundtrip _ (by simp only [strlen]; omega)] at hput
      exact hput.symm
  refine ⟨hn2, ?_⟩
  have hk : ((some key : CStr).isSome && decide (strlen (some key) > 0)) = true := by
    simp [strlen, hkey]
  have hl : (str.data.map Char.toNat).length = str.length := by rw [List.length_map]; rfl
  have hmod : (maxLen + 2 ^ 32 - 1) % 2 ^ 32 = maxLen - 1 := by
    norm_num at hsz ⊢
    omega
  have hfit : ¬ str.length + 1 > (maxLen + 2 ^ 32 - 1) % 2 ^ 32 := by
    rw [hmod]
    omega
  unfold Unor4KVStore.getString
  rw [if_pos hk]
  simp only [hget, if_true, List.length_append, hl, List.length_singleton, hn2]
  rw [if_neg hfit]

/-- C21 amended, with the scripted modem: "abc" put, answered, and read into a
16-byte buffer. -/
theorem C21_unor4_string_round_trip_witness :
    (3 : Nat) = "abc".length ∧
    (Unor4KVStore.getString scriptedModem atExample (some "k") (some []) 16 ""
        [(true, [97, 98, 99])]).1.1 = 3 + 1 :=
  C21_unor4_string_round_trip scriptedModem atExample "k" "abc" [] 16 3 "" []
    [(true, [97, 98, 99])] (by decide) (by decide) (by decide) (by decide) (by decide) (by decide) (by decide)

/-- C29. `Unor4KVStore::getString` with `maxLen = 0`, its failing input: the
`size_t` expression `maxLen-1` is `2^32 - 1`, the length test lets every response
through, and with the modem answering "abc" the call stores the four bytes
`a b c \0` through `value` and returns 4, where no byte fits; with `maxLen = 1`
the same response is refused, 0 is returned and nothing is stored. -/
theorem C29_getString_zero_maxLen_overruns :
    (0 + 2 ^ 32 - 1) % 2 ^ 32 = 4294967295 ∧
    (Unor4KVStore.getString scriptedModem atExample (some "k") (some []) 0 ""
        [(true, [97, 98, 99])]).1 = (4, some [97, 98, 99, 0]) ∧
    (Unor4KVStore.getString scriptedModem atExample (some "k") (some [7]) 1 ""
        [(true, [97, 98, 99])]).1 = (0, some [7]) := by
  decide


end ArduinoStorage
